import Mathlib

/-!
Verification development for the MongoDB-toolkit core: schema inference,
schema-node merging, and the two query validators.

Shallow embedding conventions:
* Python runtime values (BSON-like documents) are the mutual inductive
  `PyVal` / `PyList` / `PyDict`.  Strings keep Python string semantics
  (a `PyDict` key is a `String`); `bson.Int64` values get their own
  constructor `int64` because `Int64` subclasses `int` in Python, so an
  `isinstance(value, int)` check matches both `int` and `int64` — the
  classifier embeddings spell this out branch by branch.  Any Python
  value outside the modelled categories is `other tn`, where `tn` is
  `type(value).__name__`.
* Python `set` values of type-tag strings are `Finset String` (Python
  set equality is extensional and unordered).  Python `dict` values used
  as schema maps are association lists; `==` on Python dicts ignores
  insertion order, so a key-sorted association list is the canonical
  representative and dict equality becomes list equality.
* Validators append error strings to a shared list; the embedding
  returns the appended strings in order, and the caller concatenates in
  Python's execution order.
-/

namespace MongoToolkit

mutual

/-- Model of the Python/BSON runtime values the toolkit classifies:
one constructor per `isinstance` category that the source's classifiers
distinguish, plus `other` for every remaining Python object (carrying
`type(value).__name__`). -/
inductive PyVal where
  | str (s : String)
  | bool (b : Bool)
  | int64 (n : Int)
  | int (n : Int)
  | float
  | decimal128
  | list (l : PyList)
  | dict (d : PyDict)
  | objectId
  | dbref
  | timestamp
  | pynone
  | minKey
  | maxKey
  | bytes
  | binary
  | code
  | regex
  | other (tn : String)
  deriving DecidableEq

inductive PyList where
  | nil
  | cons (v : PyVal) (t : PyList)
  deriving DecidableEq

inductive PyDict where
  | nil
  | cons (k : String) (v : PyVal) (t : PyDict)
  deriving DecidableEq

end

/-- src/mongodb_toolkit/utils.py, `get_bson_type_name` (lines 42-63).
Branches in source order; the earlier `bool`/`Int64` branches shadow the
`int` branch exactly as Python's `isinstance` chain does (`bool` and
`Int64` both subclass `int`).  The final line of the source is
`return type(value).__name__`, modelled by the `other` case. -/
def get_bson_type_name : PyVal → String
  | .str _ => "string"
  | .bool _ => "bool"
  | .int64 _ => "long"
  | .int _ => "int"
  | .float => "double"
  | .decimal128 => "decimal"
  | .list _ => "array"      -- Sequence and not (str, bytes, bytearray)
  | .dict _ => "object"     -- Mapping
  | .objectId => "objectId"
  | .dbref => "dbRef"
  | .timestamp => "timestamp"
  | .pynone => "null"
  | .minKey => "minKey"
  | .maxKey => "maxKey"
  | .bytes => "binData"     -- isinstance(value, (bytes, Binary))
  | .binary => "binData"
  | .code => "javascript"
  | .regex => "regex"
  | .other tn => tn         -- return type(value).__name__

/-- src/mongodb_toolkit/validate_query_schema.py, `get_value_type_name`
(lines 5-29).  Same branch structure as `get_bson_type_name` in
utils.py, including the `Int64`-before-`int` ordering and the
`type(value).__name__` fallback. -/
def get_value_type_name : PyVal → String
  | .str _ => "string"
  | .bool _ => "bool"
  | .int64 _ => "long"
  | .int _ => "int"
  | .float => "double"
  | .decimal128 => "decimal"
  | .list _ => "array"
  | .dict _ => "object"
  | .objectId => "objectId"
  | .dbref => "dbRef"
  | .timestamp => "timestamp"
  | .pynone => "null"
  | .minKey => "minKey"
  | .maxKey => "maxKey"
  | .bytes => "binData"
  | .binary => "binData"
  | .code => "javascript"
  | .regex => "regex"
  | .other tn => tn

/-- src/mongodb_toolkit/get_schema.py, `get_bson_type_name` (lines
24-43).  In this copy `isinstance(value, int)` is checked BEFORE
`isinstance(value, Int64)`; since `bson.Int64` subclasses `int`, an
`Int64` value satisfies the `int` check first and the `Int64` branch is
unreachable.  This copy also recognizes only exact `list`/`dict`, only
`Binary` (not `bytes`) as `binData`, and only `bson.Regex` as `regex`,
so plain `bytes` values fall through to `type(value).__name__`. -/
def get_schema_get_bson_type_name : PyVal → String
  | .str _ => "string"
  | .bool _ => "bool"
  | .int64 _ => "int"       -- isinstance(value, int) fires first: Int64 <: int
  | .int _ => "int"
  | .float => "double"
  | .decimal128 => "decimal"
  | .list _ => "array"
  | .dict _ => "object"
  | .objectId => "objectId"
  | .dbref => "dbRef"
  | .timestamp => "timestamp"
  | .pynone => "null"
  | .minKey => "minKey"
  | .maxKey => "maxKey"
  | .bytes => "bytes"       -- not Binary: falls to type(value).__name__
  | .binary => "binData"
  | .code => "javascript"
  | .regex => "regex"
  | .other tn => tn

/-! ## Schema nodes and the merge engine (utils.py lines 111-189) -/

mutual

/-- A schema information dictionary as built by `_infer_schema_recursive`
and `_merge_schema_info` in src/mongodb_toolkit/utils.py: a `types` set
of BSON type-tag strings, an optional `schema` mapping (present for
objects) and an optional `element_schema` node (present for arrays).
Python's set of tags is a `Finset String`; an absent dict key is
`Option.none`. -/
inductive SchemaNode where
  | node (types : Finset String) (schema : Option SchemaMap) (element_schema : Option SchemaNode)

/-- A nested-schema dictionary (field name to `SchemaNode`), kept as a
key-sorted association list: Python `dict` equality `==` ignores
insertion order, so the sorted list is the canonical representative of
the dictionary value. -/
inductive SchemaMap where
  | nil
  | cons (k : String) (v : SchemaNode) (t : SchemaMap)

end

def SchemaNode.types : SchemaNode → Finset String
  | .node t _ _ => t

def SchemaNode.schema : SchemaNode → Option SchemaMap
  | .node _ s _ => s

def SchemaNode.element_schema : SchemaNode → Option SchemaNode
  | .node _ _ e => e

/-- The `empty_array` clean-up applied by `_merge_schema_info`
(utils.py lines 181-183): if `empty_array` sits in the type set next to
at least one other type (`len(merged_types) > 1`), discard it. -/
def cleanTypes (s : Finset String) : Finset String :=
  if "empty_array" ∈ s ∧ 1 < s.card then s.erase "empty_array" else s

/-- Applies `cleanTypes` to a node's `types` set, leaving `schema` and
`element_schema` untouched: the effect of
`merged_element["types"].discard("empty_array")` on the merged element
node. -/
def discardEmptyArrayMarker : SchemaNode → SchemaNode
  | .node t s e => .node (cleanTypes t) s e

mutual

/-- src/mongodb_toolkit/utils.py, `_merge_schema_info` (lines 111-189),
on node-shaped (Mapping) inputs; the non-Mapping degradation head of
the source (lines 113-119) is `mergeTotalInputs` below.
`types` is the set union (lines 125-126); `schema` is taken from the
side that has one, or merged key-wise when both do (lines 129-162);
`element_schema` is taken from the side that has one, or merged
recursively with the `empty_array` clean-up when both do (lines
167-183).  The source's guards against non-Mapping nested values
(lines 143-160) cannot fire on node-shaped values and have no
counterpart here. -/
def _merge_schema_info : SchemaNode → SchemaNode → SchemaNode
  | .node t1 s1 e1, .node t2 s2 e2 =>
      .node (t1 ∪ t2) (mergeSchemaOption s1 s2) (mergeElementOption e1 e2)
termination_by a b => sizeOf a + sizeOf b
decreasing_by all_goals (simp_wf; (try omega))

/-- The `schema` part of `_merge_schema_info` (utils.py lines 129-162):
keep the existing `schema` when the new side has none, take the new one
when only it has one, merge key-wise when both do. -/
def mergeSchemaOption : Option SchemaMap → Option SchemaMap → Option SchemaMap
  | s1, none => s1
  | none, some m2 => some m2
  | some m1, some m2 => some (mergeNestedSchemas m1 m2)
termination_by a b => sizeOf a + sizeOf b
decreasing_by all_goals (simp_wf; (try omega))

/-- The `element_schema` part of `_merge_schema_info` (utils.py lines
167-187): keep the existing one when the new side has none, take the
new one verbatim when only it has one, merge recursively and apply the
`empty_array` clean-up when both do. -/
def mergeElementOption : Option SchemaNode → Option SchemaNode → Option SchemaNode
  | e1, none => e1
  | none, some n2 => some n2
  | some n1, some n2 => some (discardEmptyArrayMarker (_merge_schema_info n1 n2))
termination_by a b => sizeOf a + sizeOf b
decreasing_by all_goals (simp_wf; (try omega))

/-- Key-wise merge of two nested-schema dictionaries (utils.py lines
140-161): keys present on one side pass through, keys present on both
are merged with `_merge_schema_info` (existing side first).  On the
canonical key-sorted representation this is a sorted merge. -/
def mergeNestedSchemas : SchemaMap → SchemaMap → SchemaMap
  | .nil, m2 => m2
  | m1, .nil => m1
  | .cons k1 v1 t1, .cons k2 v2 t2 =>
      if k1 < k2 then .cons k1 v1 (mergeNestedSchemas t1 (.cons k2 v2 t2))
      else if k2 < k1 then .cons k2 v2 (mergeNestedSchemas (.cons k1 v1 t1) t2)
      else .cons k1 (_merge_schema_info v1 v2) (mergeNestedSchemas t1 t2)
termination_by a b => sizeOf a + sizeOf b
decreasing_by all_goals (simp_wf; (try omega))

end

/-! ## Merge algebra: commutativity, associativity, idempotence (claim C1) -/

lemma mergeNested_nil_left (m : SchemaMap) : mergeNestedSchemas .nil m = m := by
  cases m <;> simp only [mergeNestedSchemas]

lemma mergeNested_nil_right (m : SchemaMap) : mergeNestedSchemas m .nil = m := by
  cases m <;> simp only [mergeNestedSchemas]

lemma mergeNested_lt {k1 k2 : String} (v1 v2 : SchemaNode) (t1 t2 : SchemaMap)
    (h : k1 < k2) :
    mergeNestedSchemas (.cons k1 v1 t1) (.cons k2 v2 t2)
      = .cons k1 v1 (mergeNestedSchemas t1 (.cons k2 v2 t2)) := by
  simp only [mergeNestedSchemas]
  rw [if_pos h]

lemma mergeNested_gt {k1 k2 : String} (v1 v2 : SchemaNode) (t1 t2 : SchemaMap)
    (h : k2 < k1) :
    mergeNestedSchemas (.cons k1 v1 t1) (.cons k2 v2 t2)
      = .cons k2 v2 (mergeNestedSchemas (.cons k1 v1 t1) t2) := by
  simp only [mergeNestedSchemas]
  rw [if_neg (lt_asymm h), if_pos h]

lemma mergeNested_eq {k1 k2 : String} (v1 v2 : SchemaNode) (t1 t2 : SchemaMap)
    (h : k1 = k2) :
    mergeNestedSchemas (.cons k1 v1 t1) (.cons k2 v2 t2)
      = .cons k1 (_merge_schema_info v1 v2) (mergeNestedSchemas t1 t2) := by
  subst h
  simp only [mergeNestedSchemas]
  rw [if_neg (lt_irrefl k1), if_neg (lt_irrefl k1)]

lemma cleanTypes_of_cond {s : Finset String} (h : "empty_array" ∈ s ∧ 1 < s.card) :
    cleanTypes s = s.erase "empty_array" := if_pos h

lemma cleanTypes_of_not {s : Finset String} (h : ¬("empty_array" ∈ s ∧ 1 < s.card)) :
    cleanTypes s = s := if_neg h

/-- Cleaning the left operand before a union does not change the cleaned
union: `empty_array` is only removed when another type witnesses the
removal, and the union supplies at least as many witnesses. -/
lemma cleanTypes_union_left (A B : Finset String) :
    cleanTypes (cleanTypes A ∪ B) = cleanTypes (A ∪ B) := by
  by_cases hA : "empty_array" ∈ A ∧ 1 < A.card
  · rw [cleanTypes_of_cond hA]
    by_cases hB : "empty_array" ∈ B
    · have hAB : A.erase "empty_array" ∪ B = A ∪ B := by
        ext x
        by_cases hx : x = "empty_array"
        · subst hx; simp [hA.1, hB]
        · simp [Finset.mem_erase, hx]
      rw [hAB]
    · have h1 : "empty_array" ∉ A.erase "empty_array" ∪ B := by
        simp [Finset.mem_erase, hB]
      rw [cleanTypes_of_not (by simp [h1])]
      have h2 : "empty_array" ∈ A ∪ B := Finset.mem_union_left _ hA.1
      have h3 : 1 < (A ∪ B).card :=
        lt_of_lt_of_le hA.2 (Finset.card_le_card Finset.subset_union_left)
      rw [cleanTypes_of_cond ⟨h2, h3⟩, Finset.erase_union_distrib,
        Finset.erase_eq_of_not_mem hB]
  · rw [cleanTypes_of_not hA]

lemma cleanTypes_union_right (A B : Finset String) :
    cleanTypes (A ∪ cleanTypes B) = cleanTypes (A ∪ B) := by
  rw [Finset.union_comm A (cleanTypes B), cleanTypes_union_left,
    Finset.union_comm B A]

/-- Merging after cleaning the left element node and cleaning the result
equals merging the raw nodes and cleaning once. -/
lemma merge_discard_left (u v : SchemaNode) :
    discardEmptyArrayMarker (_merge_schema_info (discardEmptyArrayMarker u) v)
      = discardEmptyArrayMarker (_merge_schema_info u v) := by
  cases u with
  | node tu su eu =>
    cases v with
    | node tv sv ev =>
      simp only [discardEmptyArrayMarker, _merge_schema_info]
      rw [cleanTypes_union_left]

lemma merge_discard_right (u v : SchemaNode) :
    discardEmptyArrayMarker (_merge_schema_info u (discardEmptyArrayMarker v))
      = discardEmptyArrayMarker (_merge_schema_info u v) := by
  cases u with
  | node tu su eu =>
    cases v with
    | node tv sv ev =>
      simp only [discardEmptyArrayMarker, _merge_schema_info]
      rw [cleanTypes_union_right]

mutual

/-- The node merge is commutative (claim C1 support). -/
theorem merge_comm : ∀ (a b : SchemaNode),
    _merge_schema_info a b = _merge_schema_info b a
  | .node t1 s1 e1, .node t2 s2 e2 => by
    simp only [_merge_schema_info, SchemaNode.node.injEq]
    refine ⟨Finset.union_comm t1 t2, ?_, ?_⟩
    · cases s1 with
      | none => cases s2 <;> simp [mergeSchemaOption]
      | some m1 =>
        cases s2 with
        | none => simp [mergeSchemaOption]
        | some m2 =>
          simp only [mergeSchemaOption]
          exact congrArg some (mergeNestedSchemas_comm m1 m2)
    · cases e1 with
      | none => cases e2 <;> simp [mergeElementOption]
      | some n1 =>
        cases e2 with
        | none => simp [mergeElementOption]
        | some n2 =>
          simp only [mergeElementOption]
          exact congrArg (fun x => some (discardEmptyArrayMarker x)) (merge_comm n1 n2)
termination_by a b => sizeOf a + sizeOf b
decreasing_by all_goals (simp_wf; (try omega))

/-- The key-wise nested-schema merge is commutative. -/
theorem mergeNestedSchemas_comm : ∀ (m1 m2 : SchemaMap),
    mergeNestedSchemas m1 m2 = mergeNestedSchemas m2 m1
  | .nil, m2 => by rw [mergeNested_nil_left, mergeNested_nil_right]
  | .cons k1 v1 t1, .nil => by rw [mergeNested_nil_left, mergeNested_nil_right]
  | .cons k1 v1 t1, .cons k2 v2 t2 => by
    rcases lt_trichotomy k1 k2 with h | h | h
    · rw [mergeNested_lt v1 v2 t1 t2 h, mergeNested_gt v2 v1 t2 t1 h,
        mergeNestedSchemas_comm t1 (.cons k2 v2 t2)]
    · rw [mergeNested_eq v1 v2 t1 t2 h, mergeNested_eq v2 v1 t2 t1 h.symm,
        merge_comm v1 v2, mergeNestedSchemas_comm t1 t2, h]
    · rw [mergeNested_gt v1 v2 t1 t2 h, mergeNested_lt v2 v1 t2 t1 h,
        mergeNestedSchemas_comm (.cons k1 v1 t1) t2]
termination_by m1 m2 => sizeOf m1 + sizeOf m2
decreasing_by all_goals (simp_wf; (try omega))

end

mutual

/-- The node merge is associative (claim C1 support). -/
theorem merge_assoc : ∀ (a b c : SchemaNode),
    _merge_schema_info (_merge_schema_info a b) c
      = _merge_schema_info a (_merge_schema_info b c)
  | .node t1 s1 e1, .node t2 s2 e2, .node t3 s3 e3 => by
    simp only [_merge_schema_info, SchemaNode.node.injEq]
    refine ⟨Finset.union_assoc t1 t2 t3, ?_, ?_⟩
    · cases s1 with
      | none =>
        cases s2 with
        | none => cases s3 <;> simp [mergeSchemaOption]
        | some m2 => cases s3 <;> simp [mergeSchemaOption]
      | some m1 =>
        cases s2 with
        | none => cases s3 <;> simp [mergeSchemaOption]
        | some m2 =>
          cases s3 with
          | none => simp [mergeSchemaOption]
          | some m3 =>
            simp only [mergeSchemaOption, Option.some.injEq]
            exact mergeNestedSchemas_assoc m1 m2 m3
    · cases e1 with
      | none =>
        cases e2 with
        | none => cases e3 <;> simp [mergeElementOption]
        | some n2 => cases e3 <;> simp [mergeElementOption]
      | some n1 =>
        cases e2 with
        | none => cases e3 <;> simp [mergeElementOption]
        | some n2 =>
          cases e3 with
          | none => simp [mergeElementOption]
          | some n3 =>
            simp only [mergeElementOption, Option.some.injEq]
            rw [merge_discard_left, merge_discard_right, merge_assoc n1 n2 n3]
termination_by a b c => sizeOf a + sizeOf b + sizeOf c
decreasing_by all_goals (simp_wf; (try omega))

/-- The key-wise nested-schema merge is associative. -/
theorem mergeNestedSchemas_assoc : ∀ (m1 m2 m3 : SchemaMap),
    mergeNestedSchemas (mergeNestedSchemas m1 m2) m3
      = mergeNestedSchemas m1 (mergeNestedSchemas m2 m3)
  | .nil, m2, m3 => by rw [mergeNested_nil_left, mergeNested_nil_left]
  | .cons k1 v1 t1, .nil, m3 => by rw [mergeNested_nil_right, mergeNested_nil_left]
  | .cons k1 v1 t1, .cons k2 v2 t2, .nil => by
    rw [mergeNested_nil_right, mergeNested_nil_right]
  | .cons k1 v1 t1, .cons k2 v2 t2, .cons k3 v3 t3 => by
    rcases lt_trichotomy k1 k2 with h12 | h12 | h12
    · rcases lt_trichotomy k2 k3 with h23 | h23 | h23
      · -- k1 < k2 < k3
        have h13 : k1 < k3 := lt_trans h12 h23
        rw [mergeNested_lt v1 v2 t1 t2 h12,
          mergeNested_lt v2 v3 t2 t3 h23,
          mergeNested_lt v1 v3 (mergeNestedSchemas t1 (.cons k2 v2 t2)) t3 h13,
          mergeNested_lt v1 v2 t1 (mergeNestedSchemas t2 (.cons k3 v3 t3)) h12,
          mergeNestedSchemas_assoc t1 (.cons k2 v2 t2) (.cons k3 v3 t3),
          mergeNested_lt v2 v3 t2 t3 h23]
      · -- k1 < k2 = k3
        subst h23
        rw [mergeNested_lt v1 v2 t1 t2 h12,
          mergeNested_eq v2 v3 t2 t3 rfl,
          mergeNested_lt v1 v3 (mergeNestedSchemas t1 (.cons k2 v2 t2)) t3 h12,
          mergeNested_lt v1 (_merge_schema_info v2 v3) t1 (mergeNestedSchemas t2 t3) h12,
          mergeNestedSchemas_assoc t1 (.cons k2 v2 t2) (.cons k2 v3 t3),
          mergeNested_eq v2 v3 t2 t3 rfl]
      · -- k1 < k2, k3 < k2
        rcases lt_trichotomy k1 k3 with h13 | h13 | h13
        · rw [mergeNested_lt v1 v2 t1 t2 h12,
            mergeNested_gt v2 v3 t2 t3 h23,
            mergeNested_lt v1 v3 (mergeNestedSchemas t1 (.cons k2 v2 t2)) t3 h13,
            mergeNested_lt v1 v3 t1 (mergeNestedSchemas (.cons k2 v2 t2) t3) h13,
            mergeNestedSchemas_assoc t1 (.cons k2 v2 t2) (.cons k3 v3 t3),
            mergeNested_gt v2 v3 t2 t3 h23]
        · subst h13
          rw [mergeNested_lt v1 v2 t1 t2 h12,
            mergeNested_gt v2 v3 t2 t3 h23,
            mergeNested_eq v1 v3 (mergeNestedSchemas t1 (.cons k2 v2 t2)) t3 rfl,
            mergeNested_eq v1 v3 t1 (mergeNestedSchemas (.cons k2 v2 t2) t3) rfl,
            mergeNestedSchemas_assoc t1 (.cons k2 v2 t2) t3]
        · rw [mergeNested_gt v2 v3 t2 t3 h23,
            mergeNested_gt v1 v3 t1 (mergeNestedSchemas (.cons k2 v2 t2) t3) h13,
            mergeNested_lt v1 v2 t1 t2 h12,
            mergeNested_gt v1 v3 (mergeNestedSchemas t1 (.cons k2 v2 t2)) t3 h13,
            ← mergeNested_lt v1 v2 t1 t2 h12,
            mergeNestedSchemas_assoc (.cons k1 v1 t1) (.cons k2 v2 t2) t3]
    · subst h12
      rcases lt_trichotomy k1 k3 with h13 | h13 | h13
      · rw [mergeNested_eq v1 v2 t1 t2 rfl,
          mergeNested_lt v2 v3 t2 t3 h13,
          mergeNested_lt (_merge_schema_info v1 v2) v3 (mergeNestedSchemas t1 t2) t3 h13,
          mergeNested_eq v1 v2 t1 (mergeNestedSchemas t2 (.cons k3 v3 t3)) rfl,
          mergeNestedSchemas_assoc t1 t2 (.cons k3 v3 t3)]
      · subst h13
        rw [mergeNested_eq v1 v2 t1 t2 rfl,
          mergeNested_eq v2 v3 t2 t3 rfl,
          mergeNested_eq (_merge_schema_info v1 v2) v3 (mergeNestedSchemas t1 t2) t3 rfl,
          mergeNested_eq v1 (_merge_schema_info v2 v3) t1 (mergeNestedSchemas t2 t3) rfl,
          merge_assoc v1 v2 v3, mergeNestedSchemas_assoc t1 t2 t3]
      · rw [mergeNested_gt v2 v3 t2 t3 h13,
          mergeNested_gt v1 v3 t1 (mergeNestedSchemas (.cons k1 v2 t2) t3) h13,
          mergeNested_eq v1 v2 t1 t2 rfl,
          mergeNested_gt (_merge_schema_info v1 v2) v3 (mergeNestedSchemas t1 t2) t3 h13,
          ← mergeNested_eq v1 v2 t1 t2 rfl,
          mergeNestedSchemas_assoc (.cons k1 v1 t1) (.cons k1 v2 t2) t3]
    · -- k2 < k1
      rcases lt_trichotomy k2 k3 with h23 | h23 | h23
      · rw [mergeNested_gt v1 v2 t1 t2 h12,
          mergeNested_lt v2 v3 (mergeNestedSchemas (.cons k1 v1 t1) t2) t3 h23,
          mergeNested_lt v2 v3 t2 t3 h23,
          mergeNested_gt v1 v2 t1 (mergeNestedSchemas t2 (.cons k3 v3 t3)) h12,
          mergeNestedSchemas_assoc (.cons k1 v1 t1) t2 (.cons k3 v3 t3)]
      · subst h23
        rw [mergeNested_gt v1 v2 t1 t2 h12,
          mergeNested_eq v2 v3 (mergeNestedSchemas (.cons k1 v1 t1) t2) t3 rfl,
          mergeNested_eq v2 v3 t2 t3 rfl,
          mergeNested_gt v1 (_merge_schema_info v2 v3) t1 (mergeNestedSchemas t2 t3) h12,
          mergeNestedSchemas_assoc (.cons k1 v1 t1) t2 t3]
      · -- k3 < k2 < k1
        have h13 : k3 < k1 := lt_trans h23 h12
        rw [mergeNested_gt v2 v3 t2 t3 h23,
          mergeNested_gt v1 v3 t1 (mergeNestedSchemas (.cons k2 v2 t2) t3) h13,
          mergeNested_gt v1 v2 t1 t2 h12,
          mergeNested_gt v2 v3 (mergeNestedSchemas (.cons k1 v1 t1) t2) t3 h23,
          ← mergeNested_gt v1 v2 t1 t2 h12,
          mergeNestedSchemas_assoc (.cons k1 v1 t1) (.cons k2 v2 t2) t3]
termination_by m1 m2 m3 => sizeOf m1 + sizeOf m2 + sizeOf m3
decreasing_by all_goals (simp_wf; (try subst_vars); (try omega))

end

mutual

/-- A valid `SchemaNode` in the sense of the spec's data-model
invariant: the `empty_array` placeholder only ever stands alone
(`types = {empty_array}` for the placeholder node), never next to a
real type, recursively through `schema` and `element_schema`.  Schema
inference maintains this invariant because the merge removes the
placeholder as soon as a real element type appears next to it. -/
def validNode : SchemaNode → Bool
  | .node t s e =>
      (decide ("empty_array" ∉ t) || decide (t = ({"empty_array"} : Finset String)))
        && validSchemaOpt s && validElemOpt e

def validSchemaOpt : Option SchemaMap → Bool
  | none => true
  | some m => validMap m

def validElemOpt : Option SchemaNode → Bool
  | none => true
  | some n => validNode n

def validMap : SchemaMap → Bool
  | .nil => true
  | .cons _ v t => validNode v && validMap t

end

lemma discard_of_valid (n : SchemaNode) (h : validNode n = true) :
    discardEmptyArrayMarker n = n := by
  cases n with
  | node t s e =>
    simp only [validNode, Bool.and_eq_true, Bool.or_eq_true, decide_eq_true_eq] at h
    obtain ⟨⟨ht, _⟩, _⟩ := h
    have hct : cleanTypes t = t := by
      rcases ht with ht | ht
      · exact cleanTypes_of_not fun hc => ht hc.1
      · rw [ht]
        exact cleanTypes_of_not (by simp)
    simp [discardEmptyArrayMarker, hct]

mutual

/-- The node merge is idempotent on valid nodes (claim C1 support). -/
theorem merge_idem : ∀ (a : SchemaNode), validNode a = true →
    _merge_schema_info a a = a
  | .node t s e, h => by
    simp only [validNode, Bool.and_eq_true] at h
    obtain ⟨⟨_, hs⟩, he⟩ := h
    simp only [_merge_schema_info, SchemaNode.node.injEq]
    refine ⟨Finset.union_self t, ?_, ?_⟩
    · cases s with
      | none => simp [mergeSchemaOption]
      | some m =>
        simp only [mergeSchemaOption, Option.some.injEq]
        exact mergeMap_idem m (by simpa [validSchemaOpt] using hs)
    · cases e with
      | none => simp [mergeElementOption]
      | some n =>
        have hn : validNode n = true := by simpa [validElemOpt] using he
        simp only [mergeElementOption, Option.some.injEq]
        rw [merge_idem n hn, discard_of_valid n hn]
termination_by a _ => sizeOf a
decreasing_by
  all_goals
    (simp_wf; (try subst_vars); (try simp only [Option.some.sizeOf_spec]); omega)

/-- The key-wise nested-schema merge is idempotent on valid maps. -/
theorem mergeMap_idem : ∀ (m : SchemaMap), validMap m = true →
    mergeNestedSchemas m m = m
  | .nil, _ => mergeNested_nil_left .nil
  | .cons k v t, h => by
    simp only [validMap, Bool.and_eq_true] at h
    rw [mergeNested_eq v v t t rfl, merge_idem v h.1, mergeMap_idem t h.2]
termination_by m _ => sizeOf m
decreasing_by all_goals (simp_wf; (try omega))

end

/-- C1: for all valid SchemaNodes `a`, `b`, `c`, the schema-node merge
`_merge_schema_info` satisfies `merge(a,b) = merge(b,a)`,
`merge(merge(a,b),c) = merge(a,merge(b,c))`, and `merge(a,a) = a`.
Commutativity and associativity hold for all nodes; idempotence needs
the data-model invariant that the `empty_array` placeholder never sits
next to another type (`validNode`), which inference maintains — without
it the clean-up `merge` applies to element schemas would strictly
shrink `merge(a,a)`. -/
theorem C1_merge_laws :
    (∀ a b : SchemaNode, _merge_schema_info a b = _merge_schema_info b a) ∧
    (∀ a b c : SchemaNode,
      _merge_schema_info (_merge_schema_info a b) c
        = _merge_schema_info a (_merge_schema_info b c)) ∧
    (∀ a : SchemaNode, validNode a = true → _merge_schema_info a a = a) :=
  ⟨merge_comm, merge_assoc, merge_idem⟩

/-- Witness for C1 at concrete nodes: an `int` leaf, an object node with
one field, and an array node carrying the `empty_array` placeholder. -/
theorem C1_merge_laws_witness :
    (_merge_schema_info (.node {"int"} none none)
        (.node {"object"} (some (.cons "x" (.node {"string"} none none) .nil)) none)
      = _merge_schema_info
        (.node {"object"} (some (.cons "x" (.node {"string"} none none) .nil)) none)
        (.node {"int"} none none)) ∧
    (validNode (.node {"array"} none (some (.node {"empty_array"} none none))) = true ∧
      _merge_schema_info (.node {"array"} none (some (.node {"empty_array"} none none)))
          (.node {"array"} none (some (.node {"empty_array"} none none)))
        = .node {"array"} none (some (.node {"empty_array"} none none))) :=
  ⟨C1_merge_laws.1 _ _,
    by simp [validNode, validSchemaOpt, validElemOpt],
    C1_merge_laws.2.2 _ (by simp [validNode, validSchemaOpt, validElemOpt])⟩

/-! ## Total merge over possibly invalid inputs (claim C4) -/

/-- An argument handed to `_merge_schema_info` by the aggregation code:
either a node-shaped value (a `Mapping` in the source's
`isinstance` sense) or any other Python value (carrying its type name
for the diagnostic print). -/
inductive MergeInput where
  | valid (n : SchemaNode)
  | invalid (tn : String)

/-- src/mongodb_toolkit/utils.py, `_merge_schema_info` lines 113-119:
the degradation head.  If `existing_info` is not a `Mapping`, return
`new_info` when that is a `Mapping` and Python `None` otherwise; if
`new_info` is not a `Mapping`, return `existing_info`; two node-shaped
inputs are merged by the body (`_merge_schema_info` above). -/
def mergeTotalInputs : MergeInput → MergeInput → Option SchemaNode
  | .invalid _, .valid n => some n
  | .invalid _, .invalid _ => none
  | .valid n, .invalid _ => some n
  | .valid a, .valid b => some (_merge_schema_info a b)

/-- C4 counterexample: with two non-node inputs the merge returns the
Python `None` sentinel — no `SchemaNode` at all, in particular no
diagnostic placeholder node tagged `unknown` as the claim states. -/
theorem C4_counterexample :
    (mergeTotalInputs (.invalid "NoneType") (.invalid "int")).isSome = false :=
  rfl

/-- C4 (amended): the merge is total over arbitrary inputs and never
raises; when exactly one side is node-shaped that side is returned
unchanged; when neither side is node-shaped the result is the
absent-value sentinel `None` (not an `unknown`-tagged placeholder
node); two node-shaped inputs are merged. -/
theorem C4_merge_total_degradation :
    (∀ (n : SchemaNode) (d : String),
        mergeTotalInputs (.valid n) (.invalid d) = some n) ∧
    (∀ (n : SchemaNode) (d : String),
        mergeTotalInputs (.invalid d) (.valid n) = some n) ∧
    (∀ d1 d2 : String, mergeTotalInputs (.invalid d1) (.invalid d2) = none) ∧
    (∀ a b : SchemaNode,
        mergeTotalInputs (.valid a) (.valid b) = some (_merge_schema_info a b)) :=
  ⟨fun _ _ => rfl, fun _ _ => rfl, fun _ _ => rfl, fun _ _ => rfl⟩

/-! ## Classifier claims (C2, C3) -/

/-- C2 counterexample: an unrecognized value (a `datetime.datetime`, say)
classifies to its runtime type name `"datetime"`, not to the constant
tag `"unknown"` the claim states. -/
theorem C2_counterexample :
    get_bson_type_name (.other "datetime") = "datetime" ∧
      get_bson_type_name (.other "datetime") ≠ "unknown" :=
  ⟨rfl, by decide⟩

/-- C2 (amended): both classifiers are total functions — every value
gets exactly one tag and no input raises — and every value outside the
recognized categories falls back to its runtime type name
(`type(value).__name__`), never to an error; the fallback tag is the
type name itself, not the constant `unknown`. -/
theorem C2_classifier_total_fallback :
    ∀ tn : String,
      get_bson_type_name (.other tn) = tn ∧ get_value_type_name (.other tn) = tn :=
  fun _ => ⟨rfl, rfl⟩

/-- C3: `Int64` values classify as `long` and generic integers as `int`
in utils.py's and validate_query_schema.py's classifiers, whose
`Int64` check precedes the generic `int` check; but get_schema.py's
copy checks `isinstance(value, int)` first, and since `Int64`
subclasses `int` it returns `"int"` for `Int64` values — against the
claim, the spec's required check order, and the sibling file's own
comment ("Important: Check Int64 before int"). -/
theorem C3_int64_precedence :
    ∀ n : Int,
      get_bson_type_name (.int64 n) = "long" ∧
      get_value_type_name (.int64 n) = "long" ∧
      get_bson_type_name (.int n) = "int" ∧
      get_schema_get_bson_type_name (.int64 n) = "int" :=
  fun _ => ⟨rfl, rfl, rfl, rfl⟩

/-! ## Schema inference and collection aggregation (utils.py lines 65-109, 192-258) -/

mutual

/-- src/mongodb_toolkit/utils.py, `_infer_schema_recursive` (lines
65-109).  The source computes `get_bson_type_name(obj)` and dispatches
on `"object"` / `"array"`; here `dict` and `list` values (the only
modelled values whose tag is `"object"` or `"array"`) are matched
directly and every other value takes the primitive branch
`{"types": {bson_type}}`.  An empty list yields the `empty_array`
placeholder element schema (lines 76-77); a non-empty list folds the
element schemas left-to-right through `_merge_schema_info` (lines
79-96).  The source's defensive `None` checks (lines 83-103) cannot
fire — inference always returns a node — and have no counterpart. -/
def _infer_schema_recursive : PyVal → SchemaNode
  | .dict d => .node {"object"} (some (inferDictSchema d)) none
  | .list .nil => .node {"array"} none (some (.node {"empty_array"} none none))
  | .list (.cons v t) =>
      .node {"array"} none (some (inferElementsFold (_infer_schema_recursive v) t))
  | v => .node {get_bson_type_name v} none none
termination_by v => sizeOf v
decreasing_by all_goals (simp_wf; (try omega))

/-- The object branch of `_infer_schema_recursive` (utils.py lines
69-73): infer each field's value in order. -/
def inferDictSchema : PyDict → SchemaMap
  | .nil => .nil
  | .cons k v t => .cons k (_infer_schema_recursive v) (inferDictSchema t)
termination_by d => sizeOf d
decreasing_by all_goals (simp_wf; (try omega))

/-- The array-element fold of `_infer_schema_recursive` (utils.py lines
79-96): `merged = merge(merged, infer(item))` left to right. -/
def inferElementsFold : SchemaNode → PyList → SchemaNode
  | acc, .nil => acc
  | acc, .cons v t =>
      inferElementsFold (_merge_schema_info acc (_infer_schema_recursive v)) t
termination_by _ l => sizeOf l
decreasing_by all_goals (simp_wf; (try omega))

end

/-- One step of the document fold in
src/mongodb_toolkit/utils.py, `generate_collection_schema` (lines
210-245): infer the document's schema; if it carries a `schema`
mapping (the document was an object), merge it field-wise into the
accumulator (insert new keys, `_merge_schema_info` on shared keys —
which is exactly the key-wise `mergeNestedSchemas` on the canonical
sorted representation); otherwise skip the document. -/
def mergeDocIntoSchema (acc : SchemaMap) (doc : PyVal) : SchemaMap :=
  match _infer_schema_recursive doc with
  | .node _ (some m) _ => mergeNestedSchemas acc m
  | _ => acc

/-- The pure core of src/mongodb_toolkit/utils.py,
`generate_collection_schema` (lines 192-258): the fold of sampled
documents into a collection-level field map.  The sampling I/O, the
empty-sample early return and the per-document exception guard wrap
this fold in the source and are out of the embedding's scope. -/
def generate_collection_schema (docs : List PyVal) : SchemaMap :=
  docs.foldl mergeDocIntoSchema .nil

/-- The merge written with the node accessors: convenient form of the
single equation of `_merge_schema_info`. -/
lemma merge_components (x y : SchemaNode) :
    _merge_schema_info x y
      = .node (x.types ∪ y.types) (mergeSchemaOption x.schema y.schema)
          (mergeElementOption x.element_schema y.element_schema) := by
  cases x
  cases y
  simp [_merge_schema_info, SchemaNode.types, SchemaNode.schema, SchemaNode.element_schema]

/-- C5: inferring the schema of an empty array yields
`{types: {array}, elementSchema: {types: {empty_array}}}`; whenever two
element schemas are merged (both sides present, utils.py lines 174-183)
and the merged type set holds `empty_array` next to at least one other
type, the resulting element schema's type set is the merged set with
`empty_array` removed; and the spec's aggregation example holds:
aggregating `[{"arr": []}]` gives `elementSchema.types == {empty_array}`
and aggregating both documents gives `elementSchema.types == {int}`. -/
theorem C5_empty_array_lifecycle :
    (_infer_schema_recursive (.list .nil)
        = .node {"array"} none (some (.node {"empty_array"} none none))) ∧
    (∀ x y : SchemaNode, "empty_array" ∈ x.types ∪ y.types →
        (∃ z ∈ x.types ∪ y.types, z ≠ "empty_array") →
        mergeElementOption (some x) (some y)
          = some (.node ((x.types ∪ y.types).erase "empty_array")
              (mergeSchemaOption x.schema y.schema)
              (mergeElementOption x.element_schema y.element_schema))) ∧
    (generate_collection_schema [.dict (.cons "arr" (.list .nil) .nil)]
        = .cons "arr" (.node {"array"} none (some (.node {"empty_array"} none none))) .nil) ∧
    (generate_collection_schema
          [.dict (.cons "arr" (.list .nil) .nil),
           .dict (.cons "arr" (.list (.cons (.int 3) .nil)) .nil)]
        = .cons "arr" (.node {"array"} none (some (.node {"int"} none none))) .nil) := by
  refine ⟨by simp [_infer_schema_recursive], ?_, ?_, ?_⟩
  · intro x y h1 h2
    obtain ⟨z, hz, hzne⟩ := h2
    have hcard : 1 < (x.types ∪ y.types).card :=
      Finset.one_lt_card.mpr ⟨z, hz, "empty_array", h1, hzne⟩
    simp only [mergeElementOption, Option.some.injEq, merge_components,
      discardEmptyArrayMarker]
    rw [cleanTypes_of_cond ⟨h1, hcard⟩]
  · simp only [generate_collection_schema, List.foldl, mergeDocIntoSchema,
      _infer_schema_recursive, inferDictSchema]
    rw [mergeNested_nil_left]
  · simp only [generate_collection_schema, List.foldl, mergeDocIntoSchema,
      _infer_schema_recursive, inferDictSchema, inferElementsFold, get_bson_type_name]
    rw [mergeNested_nil_left, mergeNested_eq _ _ _ _ rfl, mergeNested_nil_left]
    simp only [_merge_schema_info, mergeSchemaOption, mergeElementOption,
      discardEmptyArrayMarker]
    rw [cleanTypes_of_cond (by decide)]
    congr 1 <;> decide

/-- Witness for C5's quantified clean-up clause: merging the
`empty_array` placeholder with an `int` element schema removes the
placeholder. -/
theorem C5_empty_array_lifecycle_witness :
    ("empty_array" ∈
        (SchemaNode.node {"empty_array"} none none).types
          ∪ (SchemaNode.node {"int"} none none).types) ∧
    (∃ z ∈ (SchemaNode.node {"empty_array"} none none).types
          ∪ (SchemaNode.node {"int"} none none).types, z ≠ "empty_array") ∧
    mergeElementOption (some (.node {"empty_array"} none none))
        (some (.node {"int"} none none))
      = some (.node
          (((SchemaNode.node {"empty_array"} none none).types
              ∪ (SchemaNode.node {"int"} none none).types).erase "empty_array")
          (mergeSchemaOption none none) (mergeElementOption none none)) :=
  ⟨by decide, by decide,
    C5_empty_array_lifecycle.2.1 (.node {"empty_array"} none none)
      (.node {"int"} none none) (by decide) (by decide)⟩

/-! ## String and key helpers shared by the validators -/

/-- Python `key.startswith('$')`: the first character is the operator
sigil. -/
def startsWithDollar (s : String) : Bool :=
  match s.data with
  | [] => false
  | c :: _ => c == '$'

/-- Python `f"{path_prefix}.{key}" if path_prefix else key`: the empty
prefix (falsy) keeps the bare key. -/
def joinPath (pfx key : String) : String :=
  if pfx = "" then key else pfx ++ "." ++ key

/-- Python `type(value).__name__` for the modelled values, used in
structure error messages. -/
def pyTypeName : PyVal → String
  | .str _ => "str"
  | .bool _ => "bool"
  | .int64 _ => "Int64"
  | .int _ => "int"
  | .float => "float"
  | .decimal128 => "Decimal128"
  | .list _ => "list"
  | .dict _ => "dict"
  | .objectId => "ObjectId"
  | .dbref => "DBRef"
  | .timestamp => "Timestamp"
  | .pynone => "NoneType"
  | .minKey => "MinKey"
  | .maxKey => "MaxKey"
  | .bytes => "bytes"
  | .binary => "Binary"
  | .code => "Code"
  | .regex => "Regex"
  | .other tn => tn

/-- Python `isinstance(value, int)`: `bool` and `bson.Int64` both
subclass `int`, so they satisfy the check too. -/
def isinstance_int : PyVal → Bool
  | .int _ => true
  | .int64 _ => true
  | .bool _ => true
  | _ => false

/-- Python `isinstance(value, (int, float))`. -/
def isinstance_num (v : PyVal) : Bool :=
  isinstance_int v || (match v with | .float => true | _ => false)

/-- Python `isinstance(value, (str, int))`. -/
def isinstance_str_or_int (v : PyVal) : Bool :=
  (match v with | .str _ => true | _ => false) || isinstance_int v

def allStrOrInt : PyList → Bool
  | .nil => true
  | .cons v t => isinstance_str_or_int v && allStrOrInt t

/-- The `$type` value check (validate_query_syntax.py lines 111-120):
a BSON type string or number, or a non-string sequence of those. -/
def isTypeSpecValid : PyVal → Bool
  | .str _ => true
  | .int _ => true
  | .int64 _ => true
  | .bool _ => true
  | .list l => allStrOrInt l
  | _ => false

/-- The `$mod` value check (validate_query_syntax.py lines 131-133): a
non-string sequence of exactly two numbers. -/
def isModValid : PyVal → Bool
  | .list (.cons a (.cons b .nil)) => isinstance_num a && isinstance_num b
  | _ => false

/-- Python `isinstance(value, Sequence) and not isinstance(value,
(str, bytes))`: the modelled non-string sequence values are lists;
returns the list payload when the check passes. -/
def asList : PyVal → Option PyList
  | .list l => some l
  | _ => none

/-- Python `isinstance(value, Mapping)`: returns the dict payload when
the check passes. -/
def asDict : PyVal → Option PyDict
  | .dict d => some d
  | _ => none

/-- Python `isinstance(value, bool)`. -/
def isBoolVal : PyVal → Bool
  | .bool _ => true
  | _ => false

/-- Python `isinstance(value, str)`. -/
def isStrVal : PyVal → Bool
  | .str _ => true
  | _ => false

/-- Python `isinstance(value, REGEX_TYPES)` (`re.Pattern` or
`bson.Regex`). -/
def isRegexVal : PyVal → Bool
  | .regex => true
  | _ => false

def anyDollarKey : PyDict → Bool
  | .nil => false
  | .cons k _ t => startsWithDollar k || anyDollarKey t

def anyNonDollarKey : PyDict → Bool
  | .nil => false
  | .cons k _ t => !startsWithDollar k || anyNonDollarKey t

/-- Python `[k for k in sub_keys if k.startswith('$')][0]`; only
evaluated when such a key exists. -/
def firstDollarKey : PyDict → String
  | .nil => ""
  | .cons k _ t => if startsWithDollar k then k else firstDollarKey t

/-- Python `[k for k in sub_keys if not k.startswith('$')][0]`; only
evaluated when such a key exists. -/
def firstNonDollarKey : PyDict → String
  | .nil => ""
  | .cons k _ t => if startsWithDollar k then firstNonDollarKey t else k

/-! ## Syntax validator (validate_query_syntax.py) -/

/-- src/mongodb_toolkit/validate_query_syntax.py,
`KNOWN_QUERY_OPERATORS` (lines 6-26). -/
def KNOWN_QUERY_OPERATORS : List String :=
  ["$eq", "$gt", "$gte", "$in", "$lt", "$lte", "$ne", "$nin",
   "$and", "$or", "$not", "$nor",
   "$exists", "$type",
   "$expr", "$jsonSchema", "$mod", "$regex", "$options", "$text", "$where",
   "$search",
   "$geoIntersects", "$geoWithin", "$near", "$nearSphere", "$box", "$center",
   "$centerSphere", "$geometry", "$maxDistance", "$minDistance", "$polygon",
   "$all", "$elemMatch", "$size",
   "$bitsAllClear", "$bitsAllSet", "$bitsAnyClear", "$bitsAnySet",
   "$comment"]

/-- Python `f"Invalid value type for operator '{key}' at '{current_path}': ..."`:
the shared shape of the syntax validator's operator-value error
messages. -/
def opValueMsg (key cp expected : String) : String :=
  "Invalid value type for operator '" ++ key ++ "' at '" ++ cp ++ "': " ++ expected

/-- The non-recursive operator-value shape checks of
`_validate_syntax_recursive` (validate_query_syntax.py lines 96-133):
`$in/$nin/$all`, `$exists`, `$type`, `$size`, `$regex`, `$mod`; any
other known operator imposes no structural constraint. -/
def synOperatorShapeErrors (key : String) (value : PyVal) (cp : String) : List String :=
  if key = "$in" ∨ key = "$nin" ∨ key = "$all" then
    if (asList value).isSome then []
    else [opValueMsg key cp "Expected an array."]
  else if key = "$exists" then
    if isBoolVal value then []
    else [opValueMsg key cp "Expected a boolean (true/false)."]
  else if key = "$type" then
    if isTypeSpecValid value then []
    else [opValueMsg key cp "Expected a BSON type string, number, or an array of strings/numbers."]
  else if key = "$size" then
    if isinstance_int value then []
    else [opValueMsg key cp "Expected an integer."]
  else if key = "$regex" then
    if isStrVal value || isRegexVal value then []
    else [opValueMsg key cp "Expected a string or regex pattern."]
  else if key = "$mod" then
    if isModValid value then []
    else [opValueMsg key cp "Expected an array of two numbers [divisor, remainder]."]
  else []

/-- The `key.startswith('$')` unknown-operator check
(validate_query_syntax.py lines 72-73). -/
def synUnknownOpErrors (key cp : String) : List String :=
  if key ∈ KNOWN_QUERY_OPERATORS then []
  else ["Unknown operator '" ++ key ++ "' used at '" ++ cp ++ "'."]

/-- The field-name checks that do not recurse
(validate_query_syntax.py lines 141-160): empty name, and the
operator/field mixing error inside a dictionary value. -/
def synMixErrors (cp : String) (vd : PyDict) : List String :=
  ["Invalid query structure at '" ++ cp
    ++ "': Cannot mix operators (like '" ++ firstDollarKey vd
    ++ "') and field names (like '" ++ firstNonDollarKey vd
    ++ "') at the same level within a field's value."]

mutual

/-- src/mongodb_toolkit/validate_query_syntax.py,
`_validate_syntax_recursive` (lines 59-170): the errors appended for
one recursive visit, in append order. -/
def _validate_syntax_recursive (current_part : PyVal) (pfx : String) : List String :=
  match _h : asDict current_part with
  | some d => synValidateEntries d pfx
  | none =>
      ["Invalid structure at '" ++ pfx ++ "': Expected a dictionary, but found "
        ++ pyTypeName current_part ++ "."]
termination_by 5 * sizeOf current_part
decreasing_by
  all_goals
    (simp_wf;
     (try (cases current_part <;> simp_all [asDict, asList]));
     (try omega))

/-- The `for key, value in current_part.items()` loop of
`_validate_syntax_recursive`. -/
def synValidateEntries (d : PyDict) (pfx : String) : List String :=
  match d with
  | .nil => []
  | .cons k v t => synValidateKey k v pfx ++ synValidateEntries t pfx
termination_by 5 * sizeOf d + 4
decreasing_by all_goals (simp_wf; (try omega))

/-- One `key, value` iteration of `_validate_syntax_recursive`
(validate_query_syntax.py lines 67-170): operator keys dispatch on the
operator (the non-recursive value checks are `synOperatorShapeErrors`);
field keys check for emptiness and recurse into dictionary values
unless those mix operator and field sub-keys. -/
def synValidateKey (key : String) (value : PyVal) (pfx : String) : List String :=
  let current_path := joinPath pfx key
  if startsWithDollar key then
    synUnknownOpErrors key current_path
    ++
    (if key = "$and" ∨ key = "$or" ∨ key = "$nor" then
      match _hl : asList value with
      | none => [opValueMsg key current_path "Expected an array of query documents."]
      | some .nil =>
          ["Warning: Operator '" ++ key ++ "' at '" ++ current_path
            ++ "' has an empty array."]
      | some l => synValidateSubdocs 0 l current_path
    else if key = "$not" then
      match _hn : asDict value with
      | some vd => _validate_syntax_recursive (.dict vd) current_path
      | none =>
          if isRegexVal value then []
          else [opValueMsg key current_path
                  "Expected an operator expression block (dictionary) or a regex pattern."]
    else if key = "$elemMatch" then
      match _he : asDict value with
      | some vd => _validate_syntax_recursive (.dict vd) current_path
      | none => [opValueMsg key current_path "Expected a query document (dictionary)."]
    else synOperatorShapeErrors key value current_path)
  else
    if key = "" then ["Empty field name found at '" ++ pfx ++ "'."]
    else
      match _hf : asDict value with
      | some vd =>
        if anyDollarKey vd && anyNonDollarKey vd then synMixErrors current_path vd
        else if anyDollarKey vd || anyNonDollarKey vd then
          _validate_syntax_recursive (.dict vd) current_path
        else []
      | none => []
termination_by 5 * sizeOf value + 3
decreasing_by
  all_goals
    (simp_wf;
     (try (cases value <;> simp_all [asDict, asList]));
     (try omega))

/-- The indexed `for i, sub_doc in enumerate(value)` loop of the
`$and/$or/$nor` branch. -/
def synValidateSubdocs (i : Nat) (l : PyList) (basePath : String) : List String :=
  match l with
  | .nil => []
  | .cons v t =>
      _validate_syntax_recursive v (basePath ++ "[" ++ toString i ++ "]")
        ++ synValidateSubdocs (i + 1) t basePath
termination_by 5 * sizeOf l + 2
decreasing_by all_goals (simp_wf; (try omega))

end

/-- src/mongodb_toolkit/validate_query_syntax.py,
`validate_mongodb_query_syntax` (lines 37-57): a non-Mapping root
short-circuits with a single descriptive error; otherwise the recursive
walk collects every error. -/
def validate_mongodb_query_syntax (query_doc : PyVal) : List String :=
  match query_doc with
  | .dict d => _validate_syntax_recursive (.dict d) ""
  | _ => ["Query root must be a dictionary."]

/-- C8: the syntax validator rejects `{"$or": {"status": "A"}}` (non-array
value) with a non-empty error list and accepts `{"$or": [{"status":
"A"}]}` with an empty list; in general `$and/$or/$nor` require a
non-string sequence value (anything else — including strings and
bytes, which Python's `Sequence` check excludes — yields the
invalid-value error), and a non-empty array is validated by recursing
into each element as a sub-document at an indexed sub-path. -/
theorem C8_logical_operator_syntax :
    ( validate_mongodb_query_syntax
        (.dict (.cons "$or" (.dict (.cons "status" (.str "A") .nil)) .nil))
      = ["Invalid value type for operator '$or' at '$or': Expected an array of query documents."]) ∧
    ( validate_mongodb_query_syntax
        (.dict (.cons "$or"
          (.list (.cons (.dict (.cons "status" (.str "A") .nil)) .nil)) .nil))
      = []) ∧
    (∀ (key : String) (value : PyVal) (pfx : String),
      (key = "$and" ∨ key = "$or" ∨ key = "$nor") →
      (asList value = none →
        synValidateKey key value pfx
          = [opValueMsg key (joinPath pfx key) "Expected an array of query documents."]) ∧
      (∀ l, asList value = some l → l ≠ .nil →
        synValidateKey key value pfx = synValidateSubdocs 0 l (joinPath pfx key))) ∧
    (∀ (i : Nat) (v : PyVal) (t : PyList) (basePath : String),
      synValidateSubdocs i (.cons v t) basePath
        = _validate_syntax_recursive v (basePath ++ "[" ++ toString i ++ "]")
            ++ synValidateSubdocs (i + 1) t basePath) := by
  refine ⟨?_, ?_, ?_, ?_⟩
  · simp [ validate_mongodb_query_syntax, _validate_syntax_recursive, synValidateEntries,
      synValidateKey, synUnknownOpErrors, opValueMsg, KNOWN_QUERY_OPERATORS,
      startsWithDollar, joinPath, asList, asDict]
  · simp [ validate_mongodb_query_syntax, _validate_syntax_recursive, synValidateEntries,
      synValidateKey, synValidateSubdocs, synUnknownOpErrors, KNOWN_QUERY_OPERATORS,
      startsWithDollar, joinPath, asList, asDict, anyDollarKey, anyNonDollarKey]
  · intro key value pfx hk
    rcases hk with rfl | rfl | rfl <;>
      refine ⟨fun hnone => ?_, fun l hsome hne => ?_⟩ <;>
      simp_all [synValidateKey, synUnknownOpErrors, startsWithDollar,
        KNOWN_QUERY_OPERATORS] <;>
      split <;> simp_all
  · intro i v t basePath
    simp only [synValidateSubdocs]

/-- Witness for C8's quantified clauses: `$or` with a string value (not
a list) errors; `$or` with a one-element list recurses into the
element; the indexed loop unfolds one element. -/
theorem C8_logical_operator_syntax_witness :
    (("$or" : String) = "$and" ∨ ("$or" : String) = "$or" ∨ ("$or" : String) = "$nor") ∧
    (asList (.str "A") = none ∧
      synValidateKey "$or" (.str "A") ""
        = [opValueMsg "$or" (joinPath "" "$or") "Expected an array of query documents."]) ∧
    (asList (.list (.cons (.dict .nil) .nil)) = some (.cons (.dict .nil) .nil) ∧
      (PyList.cons (.dict .nil) .nil) ≠ .nil ∧
      synValidateKey "$or" (.list (.cons (.dict .nil) .nil)) ""
        = synValidateSubdocs 0 (.cons (.dict .nil) .nil) (joinPath "" "$or")) :=
  ⟨Or.inr (Or.inl rfl),
    ⟨rfl, ( C8_logical_operator_syntax.2.2.1 "$or" (.str "A") ""
        (Or.inr (Or.inl rfl))).1 rfl⟩,
    ⟨rfl, by decide,
      ( C8_logical_operator_syntax.2.2.1 "$or" (.list (.cons (.dict .nil) .nil)) ""
        (Or.inr (Or.inl rfl))).2 (.cons (.dict .nil) .nil) rfl (by decide)⟩⟩

/-! ## Schema-aware validator (validate_query_schema.py) -/

/-- src/mongodb_toolkit/validate_query_schema.py, `QUERY_OPERATORS`
(lines 32-41). -/
def QUERY_OPERATORS : List String :=
  ["$eq", "$ne", "$gt", "$gte", "$lt", "$lte", "$in", "$nin",
   "$exists", "$type",
   "$mod", "$regex", "$options", "$text", "$search", "$where",
   "$all", "$elemMatch", "$size",
   "$and", "$or", "$not", "$nor"]

/-- The numeric tag family of the validator's leniency rule
(validate_query_schema.py lines 186, 201, 255, 303). -/
def numeric_types : Finset String := {"int", "long", "double", "decimal"}

/-- Rendering of a Python set of type-tag strings inside an f-string
(`f"... {allowed_types}"`).  Python's set iteration order is not
specified (string hashes are randomized), so the embedding renders the
canonical sorted order; no claim depends on the rendering. -/
def reprTypes (T : Finset String) : String :=
  "\x7b" ++ String.intercalate ", " ((T.sort (· ≤ ·)).map (fun t => "'" ++ t ++ "'"))
    ++ "\x7d"

/-- Python `str(op_value)` for the values the `$type` branch can meet. -/
def pyStr : PyVal → String
  | .str s => s
  | .bool b => if b then "True" else "False"
  | .int n => toString n
  | .int64 n => toString n
  | v => pyTypeName v

/-- Python `all(k.startswith('$') for k in keys)`. -/
def allDollarKeys : PyDict → Bool
  | .nil => true
  | .cons k _ t => startsWithDollar k && allDollarKeys t

/-- Python `key.split('.')` on the character list: never returns the
empty list; an empty string yields `[[]]`. -/
def splitDotsData : List Char → List (List Char)
  | [] => [[]]
  | c :: rest =>
      if c = '.' then [] :: splitDotsData rest
      else
        match splitDotsData rest with
        | [] => [[c]]
        | seg :: segs => (c :: seg) :: segs

/-- Python `key.split('.')`. -/
def splitDots (s : String) : List String :=
  (splitDotsData s.data).map (fun cs => ⟨cs⟩)

lemma splitDotsData_ne_nil (cs : List Char) : splitDotsData cs ≠ [] := by
  induction cs with
  | nil => simp [splitDotsData]
  | cons c rest ih =>
    by_cases hc : c = '.'
    · simp [splitDotsData, hc]
    · simp only [splitDotsData, if_neg hc]
      cases hrec : splitDotsData rest <;> simp

lemma splitDots_ne_nil (s : String) : splitDots s ≠ [] := by
  simp [splitDots, splitDotsData_ne_nil]

/-- The first `.`-separated segment of a key that starts with the
operator sigil starts with the sigil itself. -/
lemma splitDots_head_dollar (s : String) (h : startsWithDollar s = true) :
    ∃ p rest, splitDots s = p :: rest ∧ startsWithDollar p = true := by
  unfold startsWithDollar at h
  unfold splitDots
  cases hd : s.data with
  | nil => rw [hd] at h; simp at h
  | cons c cs =>
    rw [hd] at h
    simp only [beq_iff_eq] at h
    subst h
    have hne : ('$' : Char) ≠ '.' := by decide
    simp only [splitDotsData, if_neg hne]
    cases hrec : splitDotsData cs with
    | nil => exact absurd hrec (splitDotsData_ne_nil cs)
    | cons seg segs =>
      refine ⟨⟨'$' :: seg⟩, segs.map (fun cs => ⟨cs⟩), by simp, ?_⟩
      simp [startsWithDollar]

/-- Python dictionary lookup `part in level` / `level[part]` on the
association-list representation. -/
def lookupField (part : String) : SchemaMap → Option SchemaNode
  | .nil => none
  | .cons k v t => if k = part then some v else lookupField part t

/-- A schema map whose field names never begin with the operator sigil
(true of every inferred schema: document field names are checked by the
syntax validator, and `$`-fields never come out of inference). -/
def noDollarFields : SchemaMap → Bool
  | .nil => true
  | .cons k _ t => !startsWithDollar k && noDollarFields t

theorem lookupField_dollar_none (part : String) (hp : startsWithDollar part = true) :
    ∀ (m : SchemaMap), noDollarFields m = true → lookupField part m = none
  | .nil, _ => by simp [lookupField]
  | .cons k v t, hm => by
    simp only [noDollarFields, Bool.and_eq_true, Bool.not_eq_true'] at hm
    simp only [lookupField]
    rw [if_neg, lookupField_dollar_none part hp t hm.2]
    intro hk
    rw [hk, hp] at hm
    exact absurd hm.1 (by simp)
termination_by m => sizeOf m

/-- The field-not-found error of the dotted-path walk
(validate_query_schema.py lines 128-137): the first segment of the key
gets the misplaced-operator hint when it starts with `$`. -/
def fieldNotFoundMsg (cp part tp : String) (isFirst : Bool) : String :=
  if startsWithDollar part && isFirst then
    "Invalid query key '" ++ cp ++ "': Field '" ++ part
      ++ "' not found in schema at '" ++ tp ++ "'. Is it a misplaced operator?"
  else
    "Invalid query key '" ++ cp ++ "': Field '" ++ part
      ++ "' not found in schema at '" ++ tp ++ "'."

/-- The non-object error of the dotted-path walk
(validate_query_schema.py lines 148-151). -/
def notObjectMsg (cp part tp : String) : String :=
  "Invalid query path '" ++ cp ++ "': Field '" ++ part ++ "' at '" ++ tp
    ++ "' is not defined as an 'object' in the schema, cannot traverse further."

/-- The missing-`schema` error of the dotted-path walk
(validate_query_schema.py lines 152-155). -/
def noSchemaMsg (_cp part tp : String) : String :=
  "Schema definition error: Field '" ++ part ++ "' at '" ++ tp
    ++ "' is an 'object' but lacks a 'schema' definition."

/-- src/mongodb_toolkit/validate_query_schema.py, lines 117-162: the
dotted-path walk `for i, part in enumerate(parts)`.  Descends one path
segment at a time through `schema`/`objectSchema` maps; the first
failure appends one error and stops (`valid_path = False; break`).
`cp` is the full `current_path` for messages, `tp` the running
`temp_path_prefix`, `isFirst` whether this segment is `parts[0]` (the
only position where the misplaced-operator hint applies).  The
`parts = []` case cannot arise (`split('.')` is never empty). -/
def resolvePath (parts : List String) (level : SchemaMap) (cp tp : String)
    (isFirst : Bool) : Sum String SchemaNode :=
  match parts with
  | [] => Sum.inl ""
  | [part] =>
      match lookupField part level with
      | none => Sum.inl (fieldNotFoundMsg cp part tp isFirst)
      | some info => Sum.inr info
  | part :: r :: rest =>
      match lookupField part level with
      | none => Sum.inl (fieldNotFoundMsg cp part tp isFirst)
      | some info =>
          let tp2 := joinPath tp part
          if "object" ∉ info.types then Sum.inl (notObjectMsg cp part tp2)
          else
            match info.schema with
            | none => Sum.inl (noSchemaMsg cp part tp2)
            | some m => resolvePath (r :: rest) m cp tp2 false

/-- The `$eq/$ne/$gt/$gte/$lt/$lte` branch
(validate_query_schema.py lines 180-188).  Note the source's condition:
the error path is only entered when the value's type is missing from
the allowed set AND `null` is not an allowed type — so when `null` is
allowed, every value passes this operator check, not just null
values. -/
def eqFamilyErrors (op : String) (op_value : PyVal) (allowed : Finset String)
    (cp op_path : String) : List String :=
  let t := get_value_type_name op_value
  if allowed = ∅ then
    ["Schema definition error at '" ++ cp ++ "': Field lacks 'types' definition."]
  else if t ∉ allowed ∧ "null" ∉ allowed then
    if t ∈ numeric_types ∧ (allowed ∩ numeric_types).Nonempty then []
    else
      ["Type mismatch for operator '" ++ op ++ "' at '" ++ op_path
        ++ "': Query uses type '" ++ t ++ "', but schema expects "
        ++ reprTypes allowed ++ "."]
  else []

/-- The per-item loop of the `$in/$nin` branch
(validate_query_schema.py lines 197-203); here the `null` relaxation is
per item (`item_type == 'null' and 'null' in allowed_types`). -/
def checkInItems (op : String) (l : PyList) (idx : Nat) (allowed : Finset String)
    (op_path : String) : List String :=
  match l with
  | .nil => []
  | .cons item t =>
      let item_type := get_value_type_name item
      let item_path := op_path ++ "[" ++ toString idx ++ "]"
      (if item_type ∉ allowed ∧ ¬(item_type = "null" ∧ "null" ∈ allowed) then
        if item_type ∈ numeric_types ∧ (allowed ∩ numeric_types).Nonempty then []
        else
          ["Type mismatch for item in '" ++ op ++ "' array at '" ++ item_path
            ++ "': Item type is '" ++ item_type ++ "', but schema expects "
            ++ reprTypes allowed ++ "."]
      else []) ++ checkInItems op t (idx + 1) allowed op_path

/-- The `$in/$nin` branch (validate_query_schema.py lines 190-203). -/
def inNinErrors (op : String) (op_value : PyVal) (allowed : Finset String)
    (cp op_path : String) : List String :=
  match asList op_value with
  | none =>
      ["Invalid value for operator '" ++ op ++ "' at '" ++ op_path
        ++ "': Expected an array."]
  | some l =>
      if allowed = ∅ then
        ["Schema definition error at '" ++ cp ++ "': Field lacks 'types' definition."]
      else checkInItems op l 0 allowed op_path

/-- The `$exists` branch (validate_query_schema.py lines 205-207). -/
def existsOpErrors (op : String) (op_value : PyVal) (op_path : String) : List String :=
  if isBoolVal op_value then []
  else
    ["Invalid value for operator '" ++ op ++ "' at '" ++ op_path
      ++ "': Expected boolean (true/false)."]

/-- The `$type` branch (validate_query_schema.py lines 209-225): a
string or integer spec (Python `isinstance(value, int)` also accepts
`bool` and `Int64`), then a non-fatal usage warning when the requested
type is not among the schema's types (`str(op_value) not in
allowed_types and op_value not in allowed_types` — the second test can
only hold back the warning for string specs). -/
def typeOpErrors (op : String) (op_value : PyVal) (allowed : Finset String)
    (op_path : String) : List String :=
  let valid := isStrVal op_value || isinstance_int op_value
  (if valid then []
   else
     ["Invalid value for operator '" ++ op ++ "' at '" ++ op_path
       ++ "': Expected BSON type string (e.g., 'string') or number (e.g., 2)."])
  ++
  (if valid && !(allowed = ∅) then
    let requested := pyStr op_value
    let memberAsValue := match op_value with
      | .str s => decide (s ∈ allowed)
      | _ => false
    if requested ∉ allowed ∧ memberAsValue = false then
      ["Warning: Operator '" ++ op ++ "' at '" ++ op_path ++ "' checks for type '"
        ++ pyStr op_value ++ "', which might not be among the expected schema types "
        ++ reprTypes allowed ++ "."]
    else []
  else [])

/-- The `$regex` branch (validate_query_schema.py lines 227-231): both
checks can append. -/
def regexOpErrors (op : String) (op_value : PyVal) (allowed : Finset String)
    (op_path : String) : List String :=
  (if "string" ∉ allowed then
    ["Usage warning for operator '" ++ op ++ "' at '" ++ op_path
      ++ "': Field type is not 'string' in schema (" ++ reprTypes allowed
      ++ "), $regex might not work as expected."]
  else [])
  ++
  (if isStrVal op_value || isRegexVal op_value then []
   else
     ["Invalid value for operator '" ++ op ++ "' at '" ++ op_path
       ++ "': Expected a string or regex pattern."])

/-- The `$size` branch (validate_query_schema.py lines 234-238): both
checks can append. -/
def sizeOpErrors (op : String) (op_value : PyVal) (allowed : Finset String)
    (op_path : String) : List String :=
  (if "array" ∉ allowed then
    ["Usage error for operator '" ++ op ++ "' at '" ++ op_path
      ++ "': Field type is not 'array' in schema (" ++ reprTypes allowed ++ ")."]
  else [])
  ++
  (if isinstance_int op_value then []
   else
     ["Invalid value for operator '" ++ op ++ "' at '" ++ op_path
       ++ "': Expected an integer size."])

/-- The per-item loop of the `$all` branch
(validate_query_schema.py lines 251-257). -/
def checkAllItems (op : String) (l : PyList) (idx : Nat) (elem_allowed : Finset String)
    (op_path : String) : List String :=
  match l with
  | .nil => []
  | .cons item t =>
      let item_type := get_value_type_name item
      let item_path := op_path ++ "[" ++ toString idx ++ "]"
      (if item_type ∉ elem_allowed ∧ ¬(item_type = "null" ∧ "null" ∈ elem_allowed) then
        if item_type ∈ numeric_types ∧ (elem_allowed ∩ numeric_types).Nonempty then []
        else
          ["Type mismatch for item in '" ++ op ++ "' array at '" ++ item_path
            ++ "': Item type is '" ++ item_type ++ "', but array element schema expects "
            ++ reprTypes elem_allowed ++ "."]
      else []) ++ checkAllItems op t (idx + 1) elem_allowed op_path

/-- The `$all` branch (validate_query_schema.py lines 240-259): an
`elif` chain — a non-array field type suppresses the later checks. -/
def allOpErrors (op : String) (op_value : PyVal) (allowed : Finset String)
    (element_schema : Option SchemaNode) (cp op_path : String) : List String :=
  if "array" ∉ allowed then
    ["Usage error for operator '" ++ op ++ "' at '" ++ op_path
      ++ "': Field type is not 'array' in schema (" ++ reprTypes allowed ++ ")."]
  else
    match asList op_value with
    | none =>
        ["Invalid value for operator '" ++ op ++ "' at '" ++ op_path
          ++ "': Expected an array of elements."]
    | some l =>
        match element_schema with
        | some es =>
            if es.types = ∅ then
              ["Schema definition error at '" ++ cp
                ++ "': Array field lacks 'element_schema' with 'types'."]
            else checkAllItems op l 0 es.types op_path
        | none =>
            ["Schema definition error at '" ++ cp
              ++ "': Array field lacks 'element_schema' definition needed to validate '"
              ++ op ++ "'."]

/-- The shallow `$not` check (validate_query_schema.py lines 96-110):
a non-dict value errors; a dict with a non-operator key draws the
documented incompleteness warning; no recursion (the field context is
not available at this point). -/
def notShallowErrors (query_value : PyVal) (cp : String) : List String :=
  match asDict query_value with
  | none =>
      ["Invalid value for operator '$not' at '" ++ cp
        ++ "': Expected an operator expression (dict)."]
  | some vd =>
      if allDollarKeys vd then []
      else
        ["Warning: Value for '$not' at '" ++ cp
          ++ "' contains non-operator keys. Validation might be incomplete."]

/-- The implicit-equality branch (validate_query_schema.py lines
290-305): the value's type must be an allowed type, with the per-value
`null` relaxation and the numeric-family relaxation. -/
def implicitEqErrors (query_value : PyVal) (info : SchemaNode) (cp : String) :
    List String :=
  let t := get_value_type_name query_value
  let allowed := info.types
  if allowed = ∅ then
    ["Schema definition error at '" ++ cp ++ "': Field lacks 'types' definition."]
  else if t ∉ allowed then
    if t = "null" ∧ "null" ∈ allowed then []
    else if t ∈ numeric_types ∧ (allowed ∩ numeric_types).Nonempty then []
    else
      ["Type mismatch for field '" ++ cp ++ "': Query uses type '" ++ t
        ++ "', but schema expects " ++ reprTypes allowed ++ "."]
  else []

mutual

/-- src/mongodb_toolkit/validate_query_schema.py, `_validate_recursive`
(lines 66-305), as the list of errors appended in order.  `fuel` bounds
the depth of `$elemMatch` re-entries through the wrapper helper (the
one recursion of the source that re-enters on a freshly built, larger
dictionary; Python's own recursion limit plays the same role) and is
decremented only there; every claim-relevant path is fuel-independent.
A non-Mapping `query_part` short-circuits (lines 69-73). -/
def _validate_recursive (fuel : Nat) (query_part : PyVal) (schema_part : SchemaMap)
    (pp : String) (full_schema : SchemaMap) : List String :=
  match _h : asDict query_part with
  | none =>
      ["Invalid query structure at '" ++ pp ++ "': Expected a dictionary, got "
        ++ pyTypeName query_part ++ "."]
  | some d => schemaValidateEntries fuel d schema_part pp full_schema
termination_by (fuel, 5 * sizeOf query_part)
decreasing_by
  all_goals
    (simp_wf; apply Prod.Lex.right;
     (cases query_part <;> simp_all [asDict]) <;> omega)

/-- The `for key, query_value in query_part.items()` loop of
`_validate_recursive`. -/
def schemaValidateEntries (fuel : Nat) (d : PyDict) (schema_part : SchemaMap)
    (pp : String) (full_schema : SchemaMap) : List String :=
  match d with
  | .nil => []
  | .cons k v t =>
      schemaValidateKey fuel k v schema_part pp full_schema
        ++ schemaValidateEntries fuel t schema_part pp full_schema
termination_by (fuel, 5 * sizeOf d + 4)
decreasing_by
  all_goals (simp_wf; apply Prod.Lex.right; omega)

/-- One `key, query_value` iteration of `_validate_recursive`:
`$and/$or/$nor` recurse each array element against the full top-level
schema (lines 79-94); `$not` is checked shallowly (lines 96-110); any
other key is a field name — its dotted path is resolved against the
current schema level (lines 113-162) and the value is dispatched as an
operator block (lines 167-288) or an implicit equality (lines
290-305). -/
def schemaValidateKey (fuel : Nat) (key : String) (query_value : PyVal)
    (schema_part : SchemaMap) (pp : String) (full_schema : SchemaMap) : List String :=
  let cp := joinPath pp key
  if key = "$and" ∨ key = "$or" ∨ key = "$nor" then
    match _hl : asList query_value with
    | none =>
        ["Invalid value for operator '" ++ key ++ "' at '" ++ cp
          ++ "': Expected an array of query documents."]
    | some .nil =>
        ["Warning: Operator '" ++ key ++ "' at '" ++ cp ++ "' has an empty array."]
    | some l => schemaValidateSubdocs fuel key 0 l cp full_schema
  else if key = "$not" then notShallowErrors query_value cp
  else
    match resolvePath (splitDots key) schema_part cp pp true with
    | .inl err => [err]
    | .inr info =>
        match _hq : asDict query_value with
        | some qd =>
            if anyDollarKey qd then schemaValidateOpEntries fuel qd info cp full_schema
            else implicitEqErrors query_value info cp
        | none => implicitEqErrors query_value info cp
termination_by (fuel, 5 * sizeOf query_value + 3)
decreasing_by
  all_goals
    (simp_wf; apply Prod.Lex.right;
     (cases query_value <;> simp_all [asDict, asList]) <;> omega)

/-- The indexed `for i, sub_query in enumerate(query_value)` loop of
the `$and/$or/$nor` branch (lines 87-93): a non-dict element draws its
own error; a dict element is validated against the full schema. -/
def schemaValidateSubdocs (fuel : Nat) (key : String) (i : Nat) (l : PyList)
    (basePath : String) (full_schema : SchemaMap) : List String :=
  match l with
  | .nil => []
  | .cons v t =>
      (match _h : asDict v with
       | none =>
           ["Invalid element in '" ++ key ++ "' array at '" ++ basePath ++ "["
             ++ toString i ++ "]" ++ "': Expected a query document (dict)."]
       | some vd =>
           _validate_recursive fuel (.dict vd) full_schema
             (basePath ++ "[" ++ toString i ++ "]") full_schema)
        ++ schemaValidateSubdocs fuel key (i + 1) t basePath full_schema
termination_by (fuel, 5 * sizeOf l + 2)
decreasing_by
  all_goals
    (simp_wf; apply Prod.Lex.right;
     (try (cases v <;> simp_all [asDict])) <;> omega)

/-- The `for op, op_value in query_value.items()` loop of the
operator-block branch (lines 169-288). -/
def schemaValidateOpEntries (fuel : Nat) (qd : PyDict) (info : SchemaNode)
    (cp : String) (full_schema : SchemaMap) : List String :=
  match qd with
  | .nil => []
  | .cons op opv t =>
      schemaValidateOp fuel op opv info cp full_schema
        ++ schemaValidateOpEntries fuel t info cp full_schema
termination_by (fuel, 5 * sizeOf qd + 2)
decreasing_by
  all_goals (simp_wf; apply Prod.Lex.right; omega)

/-- One operator of the operator-block branch (lines 169-288): unknown
operators error (line 172-174); the non-recursive checks live in the
standalone `...Errors` functions above; `$elemMatch` (lines 262-286)
recurses into the element's object schema or re-dispatches the body as
an operator block against a primitive element schema. -/
def schemaValidateOp (fuel : Nat) (op : String) (op_value : PyVal)
    (info : SchemaNode) (cp : String) (full_schema : SchemaMap) : List String :=
  let op_path := cp ++ "." ++ op
  if op ∉ QUERY_OPERATORS then
    ["Unknown operator '" ++ op ++ "' used at '" ++ op_path ++ "'."]
  else
    let allowed := info.types
    if op = "$eq" ∨ op = "$ne" ∨ op = "$gt" ∨ op = "$gte" ∨ op = "$lt" ∨ op = "$lte" then
      eqFamilyErrors op op_value allowed cp op_path
    else if op = "$in" ∨ op = "$nin" then inNinErrors op op_value allowed cp op_path
    else if op = "$exists" then existsOpErrors op op_value op_path
    else if op = "$type" then typeOpErrors op op_value allowed op_path
    else if op = "$regex" then regexOpErrors op op_value allowed op_path
    else if op = "$size" then sizeOpErrors op op_value allowed op_path
    else if op = "$all" then allOpErrors op op_value allowed info.element_schema cp op_path
    else if op = "$elemMatch" then
      if "array" ∉ allowed then
        ["Usage error for operator '" ++ op ++ "' at '" ++ op_path
          ++ "': Field type is not 'array' in schema (" ++ reprTypes allowed ++ ")."]
      else
        match _hd : asDict op_value with
        | none =>
            ["Invalid value for operator '" ++ op ++ "' at '" ++ op_path
              ++ "': Expected a query document (dict) for element matching."]
        | some opd =>
            match info.element_schema with
            | some es =>
                if "object" ∈ es.types then
                  match es.schema with
                  | some nested =>
                      _validate_recursive fuel (.dict opd) nested op_path full_schema
                  | none =>
                      ["Schema definition error at '" ++ cp
                        ++ "': Array element is 'object' but lacks 'schema' in 'element_schema'."]
                else if es.types ≠ ∅ then
                  _validate_recursive_operators_against_schema fuel (.dict opd) es
                    op_path full_schema
                else
                  ["Schema definition error at '" ++ cp
                    ++ "': Array field 'element_schema' lacks 'types'."]
            | none =>
                ["Schema definition error at '" ++ cp
                  ++ "': Array field lacks 'element_schema' definition needed to validate '"
                  ++ op ++ "'."]
    else []
termination_by (fuel, 5 * sizeOf op_value + 1)
decreasing_by
  all_goals
    (simp_wf; apply Prod.Lex.right;
     (cases op_value <;> simp_all [asDict]) <;> omega)

/-- src/mongodb_toolkit/validate_query_schema.py,
`_validate_recursive_operators_against_schema` (lines 308-322): wraps
the operator block and the field schema under the artificial key
`"_field_"` and re-enters the main validator with an empty path
prefix.  This is the one place that consumes fuel: the wrapper
dictionary is larger than the operator block it wraps. -/
def _validate_recursive_operators_against_schema (fuel : Nat)
    (operator_query : PyVal) (field_schema : SchemaNode) (pp : String)
    (full_schema : SchemaMap) : List String :=
  match asDict operator_query with
  | none => ["Invalid structure at '" ++ pp ++ "': Expected an operator dictionary."]
  | some _ =>
      match fuel with
      | 0 => []
      | f + 1 =>
          _validate_recursive f (.dict (.cons "_field_" operator_query .nil))
            (.cons "_field_" field_schema .nil) "" full_schema
termination_by (fuel, 5 * sizeOf operator_query)
decreasing_by
  all_goals (simp_wf; apply Prod.Lex.left; omega)

end

mutual

/-- Executable constructor count of a Python value, used as the fuel
bound for the schema validator. -/
def pvalSize : PyVal → Nat
  | .list l => 1 + plistSize l
  | .dict d => 1 + pdictSize d
  | _ => 1
termination_by v => sizeOf v
decreasing_by all_goals (simp_wf; (try omega))

def plistSize : PyList → Nat
  | .nil => 1
  | .cons v t => 1 + pvalSize v + plistSize t
termination_by l => sizeOf l
decreasing_by all_goals (simp_wf; (try omega))

def pdictSize : PyDict → Nat
  | .nil => 1
  | .cons _ v t => 1 + pvalSize v + pdictSize t
termination_by d => sizeOf d
decreasing_by all_goals (simp_wf; (try omega))

end

/-- src/mongodb_toolkit/validate_query_schema.py, `validate_query`
(lines 46-64): a non-Mapping query document short-circuits with a
single descriptive error and no traversal.  The source also
short-circuits on a non-Mapping `expected_schema` (line 59-60); in the
typed embedding the schema argument is always a mapping, so only the
query-side guard appears.  The fuel `pvalSize query_doc` is ample:
every `$elemMatch` wrapper re-entry strips at least two constructors
from the query. -/
def validate_query (query_doc : PyVal) (expected_schema : SchemaMap) : List String :=
  match query_doc with
  | .dict d =>
      _validate_recursive (pvalSize query_doc) (.dict d) expected_schema "" expected_schema
  | _ => ["Query document must be a dictionary-like object."]

lemma string_ne_of_get {s t : String} {n : Nat} {c c' : Char}
    (hs : s.data.get? n = some c) (ht : t.data.get? n = some c') (hcc : c ≠ c') :
    s ≠ t := by
  intro h
  rw [h] at hs
  rw [hs] at ht
  exact hcc (Option.some.inj ht)

lemma fieldNotFound_get14 (cp p tp : String) (b : Bool) :
    (fieldNotFoundMsg cp p tp b).data.get? 14 = some 'k' := by
  unfold fieldNotFoundMsg
  split <;>
    (simp only [String.data_append, List.append_assoc];
     rw [List.get?_append (by decide)];
     decide)

lemma fieldNotFound_get0 (cp p tp : String) (b : Bool) :
    (fieldNotFoundMsg cp p tp b).data.get? 0 = some 'I' := by
  unfold fieldNotFoundMsg
  split <;>
    (simp only [String.data_append, List.append_assoc];
     rw [List.get?_append (by decide)];
     decide)

lemma notObject_get14 (cp p tp : String) :
    (notObjectMsg cp p tp).data.get? 14 = some 'p' := by
  unfold notObjectMsg
  simp only [String.data_append, List.append_assoc]
  rw [List.get?_append (by decide)]
  decide

lemma noSchema_get0 (cp p tp : String) :
    (noSchemaMsg cp p tp).data.get? 0 = some 'S' := by
  unfold noSchemaMsg
  simp only [String.data_append, List.append_assoc]
  rw [List.get?_append (by decide)]
  decide

lemma notObject_get0 (cp p tp : String) :
    (notObjectMsg cp p tp).data.get? 0 = some 'I' := by
  unfold notObjectMsg
  simp only [String.data_append, List.append_assoc]
  rw [List.get?_append (by decide)]
  decide

/-- C7: the dotted-path walk descends one segment at a time through
nested `schema` maps, and its three failure modes each produce their
own distinct error naming the failing segment: (1) segment not found at
the current level, (2) a non-final segment whose node is not typed
`object`, (3) an `object`-typed node lacking its `schema` map.  The
three message shapes are pairwise distinct for all arguments, each
embeds the failing segment, and the spec's example — dotted path
`address.city` against a schema without `address` — yields the
field-not-found error naming `address`. -/
theorem C7_dotted_path_failures :
    (∀ (seg : String) (rest : List String) (level : SchemaMap) (cp tp : String)
        (isFirst : Bool),
      lookupField seg level = none →
      resolvePath (seg :: rest) level cp tp isFirst
        = Sum.inl (fieldNotFoundMsg cp seg tp isFirst)) ∧
    (∀ (seg r : String) (rest : List String) (level : SchemaMap) (cp tp : String)
        (isFirst : Bool) (info : SchemaNode),
      lookupField seg level = some info → "object" ∉ info.types →
      resolvePath (seg :: r :: rest) level cp tp isFirst
        = Sum.inl (notObjectMsg cp seg (joinPath tp seg))) ∧
    (∀ (seg r : String) (rest : List String) (level : SchemaMap) (cp tp : String)
        (isFirst : Bool) (info : SchemaNode),
      lookupField seg level = some info → "object" ∈ info.types →
      info.schema = none →
      resolvePath (seg :: r :: rest) level cp tp isFirst
        = Sum.inl (noSchemaMsg cp seg (joinPath tp seg))) ∧
    (∀ (seg r : String) (rest : List String) (level : SchemaMap) (cp tp : String)
        (isFirst : Bool) (info : SchemaNode) (m : SchemaMap),
      lookupField seg level = some info → "object" ∈ info.types →
      info.schema = some m →
      resolvePath (seg :: r :: rest) level cp tp isFirst
        = resolvePath (r :: rest) m cp (joinPath tp seg) false) ∧
    (∀ (cp p tp : String) (b : Bool) (cp' p' tp' : String),
      fieldNotFoundMsg cp p tp b ≠ notObjectMsg cp' p' tp') ∧
    (∀ (cp p tp : String) (b : Bool) (cp' p' tp' : String),
      fieldNotFoundMsg cp p tp b ≠ noSchemaMsg cp' p' tp') ∧
    (∀ (cp p tp cp' p' tp' : String), notObjectMsg cp p tp ≠ noSchemaMsg cp' p' tp') ∧
    (∀ (cp p tp : String) (b : Bool), ∃ pre post,
      fieldNotFoundMsg cp p tp b = pre ++ p ++ post) ∧
    (∀ (cp p tp : String), ∃ pre post, notObjectMsg cp p tp = pre ++ p ++ post) ∧
    (∀ (cp p tp : String), ∃ pre post, noSchemaMsg cp p tp = pre ++ p ++ post) ∧
    (validate_query (.dict (.cons "address.city" (.str "anything") .nil))
        (.cons "name" (.node {"string"} none none) .nil)
      = ["Invalid query key 'address.city': Field 'address' not found in schema at ''."]) := by
  refine ⟨?_, ?_, ?_, ?_, ?_, ?_, ?_, ?_, ?_, ?_, ?_⟩
  · intro seg rest level cp tp isFirst h
    cases rest <;> simp [resolvePath, h]
  · intro seg r rest level cp tp isFirst info h1 h2
    simp [resolvePath, h1, if_pos h2]
  · intro seg r rest level cp tp isFirst info h1 h2 h3
    simp [resolvePath, h1, h2, h3]
  · intro seg r rest level cp tp isFirst info m h1 h2 h3
    simp [resolvePath, h1, h2, h3]
  · intro cp p tp b cp' p' tp'
    exact string_ne_of_get (fieldNotFound_get14 cp p tp b) (notObject_get14 cp' p' tp')
      (by decide)
  · intro cp p tp b cp' p' tp'
    exact string_ne_of_get (fieldNotFound_get0 cp p tp b) (noSchema_get0 cp' p' tp')
      (by decide)
  · intro cp p tp cp' p' tp'
    exact string_ne_of_get (notObject_get0 cp p tp) (noSchema_get0 cp' p' tp')
      (by decide)
  · intro cp p tp b
    unfold fieldNotFoundMsg
    split
    · exact ⟨"Invalid query key '" ++ cp ++ "': Field '",
        "' not found in schema at '" ++ tp ++ "'. Is it a misplaced operator?",
        by simp [String.append_assoc]⟩
    · exact ⟨"Invalid query key '" ++ cp ++ "': Field '",
        "' not found in schema at '" ++ tp ++ "'.",
        by simp [String.append_assoc]⟩
  · intro cp p tp
    exact ⟨"Invalid query path '" ++ cp ++ "': Field '",
      "' at '" ++ tp ++ "' is not defined as an 'object' in the schema, cannot traverse further.",
      by simp [notObjectMsg, String.append_assoc]⟩
  · intro cp p tp
    exact ⟨"Schema definition error: Field '",
      "' at '" ++ tp ++ "' is an 'object' but lacks a 'schema' definition.",
      by simp [noSchemaMsg, String.append_assoc]⟩
  · simp only [validate_query]
    rw [_validate_recursive]
    simp only [asDict, schemaValidateEntries]
    rw [schemaValidateKey]
    simp [resolvePath, lookupField, splitDots, splitDotsData, fieldNotFoundMsg,
      startsWithDollar, joinPath]

/-- Witness for C7: the three failure modes at concrete inputs — the
spec's `address.city` field-not-found, a non-object intermediate
segment, and an object node missing its `schema`. -/
theorem C7_dotted_path_failures_witness :
    (lookupField "address" (.cons "name" (.node {"string"} none none) .nil) = none ∧
      resolvePath ["address", "city"] (.cons "name" (.node {"string"} none none) .nil)
          "address.city" "" true
        = Sum.inl (fieldNotFoundMsg "address.city" "address" "" true)) ∧
    (lookupField "age" (.cons "age" (.node {"int"} none none) .nil)
        = some (.node {"int"} none none) ∧
      "object" ∉ (SchemaNode.node {"int"} none none).types ∧
      resolvePath ["age", "x"] (.cons "age" (.node {"int"} none none) .nil)
          "age.x" "" true
        = Sum.inl (notObjectMsg "age.x" "age" (joinPath "" "age"))) ∧
    (lookupField "addr" (.cons "addr" (.node {"object"} none none) .nil)
        = some (.node {"object"} none none) ∧
      "object" ∈ (SchemaNode.node {"object"} none none).types ∧
      (SchemaNode.node {"object"} none none).schema = none ∧
      resolvePath ["addr", "x"] (.cons "addr" (.node {"object"} none none) .nil)
          "addr.x" "" true
        = Sum.inl (noSchemaMsg "addr.x" "addr" (joinPath "" "addr"))) := by
  refine ⟨⟨?_, ?_⟩, ⟨?_, by decide, ?_⟩, ⟨?_, by decide, rfl, ?_⟩⟩
  · simp [lookupField]
  · exact C7_dotted_path_failures.1 "address" ["city"] _ "address.city" "" true
      (by simp [lookupField])
  · simp [lookupField]
  · exact C7_dotted_path_failures.2.1 "age" "x" [] _ "age.x" "" true
      (.node {"int"} none none) (by simp [lookupField]) (by decide)
  · simp [lookupField]
  · exact C7_dotted_path_failures.2.2.1 "addr" "x" [] _ "addr.x" "" true
      (.node {"object"} none none) (by simp [lookupField]) (by decide) rfl

/-- The operator-block test of `_validate_recursive` line 167:
`isinstance(query_value, Mapping) and any(k.startswith('$') for k in
query_value.keys())`. -/
def hasOperatorKeys : PyVal → Bool
  | .dict d => anyDollarKey d
  | _ => false

lemma eqFamilyErrors_empty_iff (op : String) (v : PyVal) (T : Finset String)
    (cp pth : String) (hT : T.Nonempty) :
    eqFamilyErrors op v T cp pth = [] ↔
      (get_value_type_name v ∈ T ∨ "null" ∈ T ∨
        (get_value_type_name v ∈ numeric_types ∧ (T ∩ numeric_types).Nonempty)) := by
  unfold eqFamilyErrors
  rw [if_neg (Finset.nonempty_iff_ne_empty.mp hT)]
  by_cases h1 : get_value_type_name v ∉ T ∧ "null" ∉ T
  · rw [if_pos h1]
    by_cases h2 : get_value_type_name v ∈ numeric_types ∧ (T ∩ numeric_types).Nonempty
    · simp only [if_pos h2]
      tauto
    · rw [if_neg h2]
      simp only [List.cons_ne_nil]
      tauto
  · rw [if_neg h1]
    simp only [true_iff]
    tauto

lemma implicitEqErrors_empty_iff (v : PyVal) (T : Finset String)
    (s : Option SchemaMap) (e : Option SchemaNode) (cp : String) (hT : T.Nonempty) :
    implicitEqErrors v (.node T s e) cp = [] ↔
      (get_value_type_name v ∈ T ∨
        (get_value_type_name v = "null" ∧ "null" ∈ T) ∨
        (get_value_type_name v ∈ numeric_types ∧ (T ∩ numeric_types).Nonempty)) := by
  unfold implicitEqErrors
  simp only [SchemaNode.types]
  rw [if_neg (Finset.nonempty_iff_ne_empty.mp hT)]
  by_cases h1 : get_value_type_name v ∉ T
  · rw [if_pos h1]
    by_cases h2 : get_value_type_name v = "null" ∧ "null" ∈ T
    · simp only [if_pos h2]
      tauto
    · rw [if_neg h2]
      by_cases h3 : get_value_type_name v ∈ numeric_types ∧ (T ∩ numeric_types).Nonempty
      · simp only [if_pos h3]
        tauto
      · rw [if_neg h3]
        simp only [List.cons_ne_nil]
        tauto
  · rw [if_neg h1]
    simp only [true_iff]
    tauto

/-- The single-field query `{"age": {op: v}}` with an operator key `op`
dispatches to the operator handler for the resolved `age` leaf. -/
lemma validate_query_op_dispatch (op : String) (v : PyVal) (T : Finset String)
    (hsd : startsWithDollar op = true) :
    validate_query (.dict (.cons "age" (.dict (.cons op v .nil)) .nil))
        (.cons "age" (.node T none none) .nil)
      = schemaValidateOp
          (pvalSize (.dict (.cons "age" (.dict (.cons op v .nil)) .nil)))
          op v (.node T none none) "age"
          (.cons "age" (.node T none none) .nil) := by
  simp only [validate_query]
  rw [_validate_recursive]
  simp only [asDict, schemaValidateEntries]
  rw [schemaValidateKey]
  simp [show startsWithDollar "age" = false from rfl, joinPath, splitDots,
    splitDotsData, resolvePath, lookupField, asDict, anyDollarKey, hsd,
    schemaValidateOpEntries]

/-- For a known comparison operator the handler is the `$eq`-family
check (validate_query_schema.py lines 180-188). -/
lemma schemaValidateOp_eqFamily (f : Nat) (op : String) (v : PyVal)
    (T : Finset String) (s : Option SchemaMap) (e : Option SchemaNode)
    (cp : String) (full : SchemaMap)
    (hQ : op ∈ QUERY_OPERATORS)
    (hsix : op = "$eq" ∨ op = "$ne" ∨ op = "$gt" ∨ op = "$gte" ∨ op = "$lt" ∨ op = "$lte") :
    schemaValidateOp f op v (.node T s e) cp full
      = eqFamilyErrors op v T cp (cp ++ "." ++ op) := by
  rw [schemaValidateOp]
  rw [if_neg (by simpa using hQ), if_pos hsix]
  simp [SchemaNode.types]

/-- The single-field query `{"age": v}` with a value that is not an
operator block dispatches to the implicit-equality check for the
resolved `age` leaf. -/
lemma validate_query_implicit_dispatch (v : PyVal) (T : Finset String)
    (hop : hasOperatorKeys v = false) :
    validate_query (.dict (.cons "age" v .nil))
        (.cons "age" (.node T none none) .nil)
      = implicitEqErrors v (.node T none none) "age" := by
  simp only [validate_query]
  rw [_validate_recursive]
  simp only [asDict, schemaValidateEntries]
  rw [schemaValidateKey]
  simp only [startsWithDollar, joinPath, splitDots, splitDotsData, resolvePath,
    lookupField, String.data]
  cases v <;> simp_all [asDict, hasOperatorKeys, resolvePath, lookupField,
    splitDots, splitDotsData, startsWithDollar, joinPath]

/-- C6 counterexample: schema `{"age": {types: {int, null}}}` and query
`{"age": {"$gt": "old"}}`.  The value's type `string` is not allowed,
the value is not null, and `string` is not numeric — by the claim an
error must be emitted — yet the validator returns `[]`, because the
source's `$eq`-family condition (line 184) lets EVERY value pass once
`null` is an allowed type. -/
theorem C6_counterexample :
    validate_query (.dict (.cons "age" (.dict (.cons "$gt" (.str "old") .nil)) .nil))
        (.cons "age" (.node {"int", "null"} none none) .nil) = [] ∧
    get_value_type_name (.str "old") = "string" ∧
    "string" ∉ ({"int", "null"} : Finset String) ∧
    get_value_type_name (.str "old") ≠ "null" ∧
    "string" ∉ numeric_types := by
  refine ⟨?_, rfl, by decide, by decide, by decide⟩
  rw [validate_query_op_dispatch "$gt" (.str "old") {"int", "null"} rfl,
    schemaValidateOp_eqFamily _ "$gt" (.str "old") {"int", "null"} none none
      "age" _ (by decide) (by tauto)]
  unfold eqFamilyErrors
  rw [if_neg (by decide), if_neg (by decide)]

/-- C6 (amended): for a resolved leaf with non-empty allowed type set
and a comparison operator `$eq/$ne/$gt/$gte/$lt/$lte`, the validator
accepts exactly when the value's type is allowed, OR `null` is among
the allowed types (any value then passes — the source tests `'null'
not in allowed_types`, not whether the value is null), OR the numeric
family relaxation applies; for implicit equality it accepts exactly
when the value's type is allowed, or the value is null with `null`
allowed, or the numeric relaxation applies. -/
theorem C6_comparison_type_check :
    ∀ (T : Finset String) (op : String) (v : PyVal),
      T.Nonempty →
      op ∈ ["$eq", "$ne", "$gt", "$gte", "$lt", "$lte"] →
      ((validate_query (.dict (.cons "age" (.dict (.cons op v .nil)) .nil))
          (.cons "age" (.node T none none) .nil) = []
        ↔ (get_value_type_name v ∈ T ∨ "null" ∈ T ∨
            (get_value_type_name v ∈ numeric_types ∧ (T ∩ numeric_types).Nonempty))) ∧
      (hasOperatorKeys v = false →
        (validate_query (.dict (.cons "age" v .nil))
            (.cons "age" (.node T none none) .nil) = []
          ↔ (get_value_type_name v ∈ T ∨
              (get_value_type_name v = "null" ∧ "null" ∈ T) ∨
              (get_value_type_name v ∈ numeric_types ∧ (T ∩ numeric_types).Nonempty))))) := by
  intro T op v hT hop
  simp only [List.mem_cons, List.mem_singleton, List.not_mem_nil, or_false] at hop
  have hsd : startsWithDollar op = true := by
    rcases hop with rfl | rfl | rfl | rfl | rfl | rfl <;> rfl
  have hQ : op ∈ QUERY_OPERATORS := by
    rcases hop with rfl | rfl | rfl | rfl | rfl | rfl <;> decide
  constructor
  · rw [validate_query_op_dispatch op v T hsd,
      schemaValidateOp_eqFamily _ op v T none none "age" _ hQ hop]
    exact eqFamilyErrors_empty_iff op v T "age" ("age" ++ "." ++ op) hT
  · intro hok
    rw [validate_query_implicit_dispatch v T hok]
    exact implicitEqErrors_empty_iff v T none none "age" hT

/-- Witness for C6 at schema types `{int}`, operator `$gt`, value `30`:
both the operator-block clause and the implicit-equality clause,
hypotheses discharged concretely. -/
theorem C6_comparison_type_check_witness :
    ({"int"} : Finset String).Nonempty ∧
    ("$gt" ∈ ["$eq", "$ne", "$gt", "$gte", "$lt", "$lte"]) ∧
    hasOperatorKeys (.int 30) = false ∧
    ((validate_query (.dict (.cons "age" (.dict (.cons "$gt" (.int 30) .nil)) .nil))
        (.cons "age" (.node {"int"} none none) .nil) = []
      ↔ (get_value_type_name (.int 30) ∈ ({"int"} : Finset String) ∨
          "null" ∈ ({"int"} : Finset String) ∨
          (get_value_type_name (.int 30) ∈ numeric_types ∧
            (({"int"} : Finset String) ∩ numeric_types).Nonempty))) ∧
     (validate_query (.dict (.cons "age" (.int 30) .nil))
          (.cons "age" (.node {"int"} none none) .nil) = []
        ↔ (get_value_type_name (.int 30) ∈ ({"int"} : Finset String) ∨
            (get_value_type_name (.int 30) = "null" ∧ "null" ∈ ({"int"} : Finset String)) ∨
            (get_value_type_name (.int 30) ∈ numeric_types ∧
              (({"int"} : Finset String) ∩ numeric_types).Nonempty)))) :=
  ⟨by decide, by decide, rfl,
    (C6_comparison_type_check {"int"} "$gt" (.int 30) (by decide) (by decide)).1,
    (C6_comparison_type_check {"int"} "$gt" (.int 30) (by decide) (by decide)).2 rfl⟩

/-- C9: both validators are total functions of their input (the
embedding consists of total Lean functions, mirroring the sources,
which raise nothing: every issue is appended to the `errors` list); the
single short-circuit is a non-dictionary query root, which returns
exactly the one-element descriptive list without touching the
recursive traversal (validate_query_syntax.py lines 53-54,
validate_query_schema.py lines 57-58), while a dictionary root always
enters the recursive traversal with the empty path prefix. -/
theorem C9_total_accumulation :
    (∀ q : PyVal, asDict q = none →
      validate_mongodb_query_syntax q = ["Query root must be a dictionary."]) ∧
    (∀ (q : PyVal) (s : SchemaMap), asDict q = none →
      validate_query q s = ["Query document must be a dictionary-like object."]) ∧
    (∀ d : PyDict,
      validate_mongodb_query_syntax (.dict d) = _validate_syntax_recursive (.dict d) "") ∧
    (∀ (d : PyDict) (s : SchemaMap),
      validate_query (.dict d) s
        = _validate_recursive (pvalSize (.dict d)) (.dict d) s "" s) := by
  refine ⟨?_, ?_, fun d => rfl, fun d s => rfl⟩
  · intro q h
    cases q <;> simp_all [asDict, validate_mongodb_query_syntax]
  · intro q s h
    cases q <;> simp_all [asDict, validate_query]

/-- Witness for C9: the integer root `5` short-circuits both
validators; the dictionary root `{}` enters traversal. -/
theorem C9_total_accumulation_witness :
    asDict (.int 5) = none ∧
    validate_mongodb_query_syntax (.int 5) = ["Query root must be a dictionary."] ∧
    validate_query (.int 5) .nil = ["Query document must be a dictionary-like object."] ∧
    validate_mongodb_query_syntax (.dict .nil) = _validate_syntax_recursive (.dict .nil) "" ∧
    validate_query (.dict .nil) .nil
      = _validate_recursive (pvalSize (.dict .nil)) (.dict .nil) .nil "" .nil :=
  ⟨rfl, C9_total_accumulation.1 (.int 5) rfl,
    C9_total_accumulation.2.1 (.int 5) .nil rfl,
    C9_total_accumulation.2.2.1 .nil,
    C9_total_accumulation.2.2.2 .nil .nil⟩

/-- C10: in schema-aware validation, a query key starting with `$`
other than `$and/$or/$nor/$not` falls through to the field-name branch
(validate_query_schema.py line 110 onward): it is split on dots,
looked up in the schema, and — whenever the schema's field names never
start with `$` — the lookup of its first segment fails, producing
exactly the one field-not-found error whose message carries the
misplaced-operator hint; this holds at the handler for any level and
in particular for a whole top-level query `{key: v}`. -/
theorem C10_dollar_key_not_operator :
    ∀ (fuel : Nat) (key : String) (v : PyVal) (sch : SchemaMap) (pp : String)
      (full : SchemaMap),
      startsWithDollar key = true →
      key ≠ "$and" → key ≠ "$or" → key ≠ "$nor" → key ≠ "$not" →
      noDollarFields sch = true →
      ∃ p rest, splitDots key = p :: rest ∧ startsWithDollar p = true ∧
        schemaValidateKey fuel key v sch pp full
          = [fieldNotFoundMsg (joinPath pp key) p pp true] ∧
        validate_query (.dict (.cons key v .nil)) sch
          = [fieldNotFoundMsg (joinPath "" key) p "" true] ∧
        fieldNotFoundMsg (joinPath pp key) p pp true
          = "Invalid query key '" ++ joinPath pp key ++ "': Field '" ++ p
            ++ "' not found in schema at '" ++ pp
            ++ "'. Is it a misplaced operator?" := by
  intro fuel key v sch pp full hk hand hor hnor hnot hnd
  obtain ⟨p, rest, hsp, hpd⟩ := splitDots_head_dollar key hk
  have hlook : lookupField p sch = none := lookupField_dollar_none p hpd sch hnd
  have hmain : ∀ (f : Nat) (pp2 : String) (full2 : SchemaMap),
      schemaValidateKey f key v sch pp2 full2
        = [fieldNotFoundMsg (joinPath pp2 key) p pp2 true] := by
    intro f pp2 full2
    rw [schemaValidateKey]
    rw [if_neg (by tauto), if_neg hnot, hsp]
    cases rest with
    | nil => simp [resolvePath, hlook]
    | cons r rs => simp [resolvePath, hlook]
  refine ⟨p, rest, hsp, hpd, hmain fuel pp full, ?_, ?_⟩
  · simp only [validate_query]
    rw [_validate_recursive]
    simp only [asDict, schemaValidateEntries]
    rw [hmain _ "" sch]
    simp
  · simp [fieldNotFoundMsg, hpd]

/-- Witness for C10 at the top-level key `$expr` against the schema
`{"age": {types: {int}}}`. -/
theorem C10_dollar_key_not_operator_witness :
    startsWithDollar "$expr" = true ∧
    ("$expr" : String) ≠ "$and" ∧ ("$expr" : String) ≠ "$not" ∧
    noDollarFields (.cons "age" (.node {"int"} none none) .nil) = true ∧
    ∃ p rest, splitDots "$expr" = p :: rest ∧ startsWithDollar p = true ∧
      schemaValidateKey 9 "$expr" (.int 1)
          (.cons "age" (.node {"int"} none none) .nil) ""
          (.cons "age" (.node {"int"} none none) .nil)
        = [fieldNotFoundMsg (joinPath "" "$expr") p "" true] ∧
      validate_query (.dict (.cons "$expr" (.int 1) .nil))
          (.cons "age" (.node {"int"} none none) .nil)
        = [fieldNotFoundMsg (joinPath "" "$expr") p "" true] ∧
      fieldNotFoundMsg (joinPath "" "$expr") p "" true
        = "Invalid query key '" ++ joinPath "" "$expr" ++ "': Field '" ++ p
          ++ "' not found in schema at '" ++ ""
          ++ "'. Is it a misplaced operator?" :=
  ⟨by decide, by decide, by decide, by decide,
    C10_dollar_key_not_operator 9 "$expr" (.int 1)
      (.cons "age" (.node {"int"} none none) .nil) ""
      (.cons "age" (.node {"int"} none none) .nil)
      (by decide) (by decide) (by decide) (by decide) (by decide) (by decide)⟩

end MongoToolkit
